import Mathlib

/-!
Verification of the interactive TUI state machine of the `dnd` character-sheet
application: the generic scrollable table and modal form components and the
tabbed/moded sheet screen built from them.  Go integers are modeled as `Int`
(with `Int.tmod` for the Go `%` operator); fallible code paths (Go panics:
out-of-range slice indexing, modulo by zero) are modeled with `Option`, where
`none` marks an input on which the Go handler is undefined.
-/

namespace DnD

/-! ## ScrollableTable component (`components.TableModel`) -/

/-- A single row of table data (Go `components.TableRow`); the opaque
`Data interface{}` payload is the type parameter `α`. -/
structure TableRow (α : Type) where
  id : String
  cells : List String
  data : α
deriving DecidableEq

/-- Messages emitted by the table on enter / e / d (Go `TableSelectMsg`,
`TableEditMsg`, `TableDeleteMsg`). -/
inductive TableMsg (α : Type) where
  | select (row : TableRow α)
  | edit (row : TableRow α)
  | delete (row : TableRow α)
deriving DecidableEq

/-- The scrollable table state (Go `components.TableModel`); the
style/width/emptyMessage fields are render-only and omitted. -/
structure TableModel (α : Type) where
  rows : List (TableRow α)
  cursor : Int
  viewport : Int
  visibleRows : Int
  focused : Bool
deriving DecidableEq

/-- Go `NewTable`: fresh table with 10 visible rows, unfocused. -/
def NewTable (α : Type) : TableModel α :=
  { rows := [], cursor := 0, viewport := 0, visibleRows := 10, focused := false }

/-- Go `TableModel.adjustViewport`: shift the viewport minimally so the cursor
is visible, then clamp it into `[0, max 0 (len rows - visibleRows)]`. -/
def TableModel.adjustViewport {α : Type} (t : TableModel α) : TableModel α :=
  let vp := if t.cursor < t.viewport then t.cursor else t.viewport
  let vp := if t.cursor ≥ vp + t.visibleRows then t.cursor - t.visibleRows + 1 else vp
  let maxViewport := max 0 ((t.rows.length : Int) - t.visibleRows)
  let vp := if vp > maxViewport then maxViewport else vp
  let vp := if vp < 0 then 0 else vp
  { t with viewport := vp }

/-- Go `TableModel.SetRows`: replace all rows, reset an out-of-bounds cursor
to the last valid index, re-adjust the viewport. -/
def TableModel.setRows {α : Type} (t : TableModel α) (rows : List (TableRow α)) :
    TableModel α :=
  let t := { t with rows := rows }
  let t := if t.cursor ≥ (rows.length : Int) then
    { t with cursor := max 0 ((rows.length : Int) - 1) } else t
  t.adjustViewport

/-- Go `TableModel.AddRow`: append a row (no cursor/viewport adjustment). -/
def TableModel.addRow {α : Type} (t : TableModel α) (row : TableRow α) : TableModel α :=
  { t with rows := t.rows ++ [row] }

/-- Helper for `removeRow`: delete the first row whose id matches, returning
`none` when no row matches (in which case Go `RemoveRow` does nothing). -/
def removeFirstRow {α : Type} (id : String) :
    List (TableRow α) → Option (List (TableRow α))
  | [] => none
  | r :: rs =>
    if r.id = id then some rs
    else (removeFirstRow id rs).map (fun l => r :: l)

/-- Go `TableModel.RemoveRow`: remove the first row with the given id; then,
if the cursor now lies past the end and is positive, decrement it; finally
re-adjust the viewport.  When no row matches, the table is unchanged. -/
def TableModel.removeRow {α : Type} (t : TableModel α) (id : String) : TableModel α :=
  match removeFirstRow id t.rows with
  | none => t
  | some rows =>
    let t := { t with rows := rows }
    let t : TableModel α := if t.cursor ≥ (rows.length : Int) ∧ t.cursor > 0 then
      { t with cursor := t.cursor - 1 } else t
    t.adjustViewport

/-- Go `TableModel.UpdateRow`: replace the first row with the given id. -/
def TableModel.updateRow {α : Type} (t : TableModel α) (id : String)
    (newRow : TableRow α) : TableModel α :=
  { t with rows := t.rows.map (fun r => if r.id = id then newRow else r) }

/-- Go `TableModel.GetSelectedRow`: the row under the cursor, or `none` when
the table is empty or the cursor is out of bounds.  The Go guard
`len(rows) == 0 or cursor < 0 or cursor >= len(rows)` is exactly the negation
of `0 ≤ cursor < len rows` (an empty table forces one of the two bounds to
fail), so the positive condition is used here. -/
def TableModel.getSelectedRow {α : Type} (t : TableModel α) : Option (TableRow α) :=
  if h : 0 ≤ t.cursor ∧ t.cursor < (t.rows.length : Int) then
    some (t.rows.get ⟨t.cursor.toNat, by omega⟩)
  else none

/-- Go `TableModel.SetVisibleRows`. -/
def TableModel.setVisibleRows {α : Type} (t : TableModel α) (n : Int) : TableModel α :=
  ({ t with visibleRows := n } : TableModel α).adjustViewport

/-- Go `TableModel.SetFocused`. -/
def TableModel.setFocused {α : Type} (t : TableModel α) (f : Bool) : TableModel α :=
  { t with focused := f }

/-- Go `TableModel.RowCount`. -/
def TableModel.rowCount {α : Type} (t : TableModel α) : Int :=
  (t.rows.length : Int)

/-- Go `TableModel.Update` on a key message (the `msg.String()` value).  When
unfocused every key is ignored.  Returns the new table plus the message the
returned `tea.Cmd` would deliver, if any. -/
def TableModel.update {α : Type} (t : TableModel α) (key : String) :
    TableModel α × Option (TableMsg α) :=
  if ¬ t.focused then (t, none)
  else if key = "up" ∨ key = "k" then
    (if t.cursor > 0 then TableModel.adjustViewport { t with cursor := t.cursor - 1 }
     else t, none)
  else if key = "down" ∨ key = "j" then
    (if t.cursor < (t.rows.length : Int) - 1 then
      TableModel.adjustViewport { t with cursor := t.cursor + 1 }
     else t, none)
  else if key = "pgup" then
    (TableModel.adjustViewport { t with cursor := max 0 (t.cursor - t.visibleRows) }, none)
  else if key = "pgdown" then
    (TableModel.adjustViewport
      { t with cursor := min ((t.rows.length : Int) - 1) (t.cursor + t.visibleRows) }, none)
  else if key = "home" ∨ key = "g" then
    (TableModel.adjustViewport { t with cursor := 0 }, none)
  else if key = "end" ∨ key = "G" then
    (TableModel.adjustViewport { t with cursor := max 0 ((t.rows.length : Int) - 1) }, none)
  else if key = "enter" then (t, t.getSelectedRow.map TableMsg.select)
  else if key = "e" then (t, t.getSelectedRow.map TableMsg.edit)
  else if key = "d" ∨ key = "delete" then (t, t.getSelectedRow.map TableMsg.delete)
  else (t, none)

/-- The navigation keys of the table (canonical names and their vi-style
aliases, which the source treats identically). -/
def tableNavKeys : List String :=
  ["up", "k", "down", "j", "pgup", "pgdown", "home", "g", "end", "G"]

/-- The table invariant stated in the specification: the cursor lies in the
visible window, the viewport is clamped, and on a non-empty table the cursor
is a valid row index. -/
def TableModel.invariant {α : Type} (t : TableModel α) : Prop :=
  t.viewport ≤ t.cursor ∧ t.cursor < t.viewport + t.visibleRows ∧
  0 ≤ t.viewport ∧ t.viewport ≤ max 0 ((t.rows.length : Int) - t.visibleRows) ∧
  (t.rows ≠ [] → 0 ≤ t.cursor ∧ t.cursor < (t.rows.length : Int))

instance {α : Type} [DecidableEq α] (t : TableModel α) :
    Decidable t.invariant := by
  unfold TableModel.invariant
  infer_instance

/-- Processing a list of keys in order (folding `TableModel.update`). -/
def TableModel.updateKeys {α : Type} (t : TableModel α) (keys : List String) :
    TableModel α :=
  keys.foldl (fun t k => (t.update k).1) t

theorem adjustViewport_rows {α : Type} (t : TableModel α) :
    t.adjustViewport.rows = t.rows := rfl

theorem adjustViewport_cursor {α : Type} (t : TableModel α) :
    t.adjustViewport.cursor = t.cursor := rfl

theorem adjustViewport_visibleRows {α : Type} (t : TableModel α) :
    t.adjustViewport.visibleRows = t.visibleRows := rfl

theorem adjustViewport_focused {α : Type} (t : TableModel α) :
    t.adjustViewport.focused = t.focused := rfl

/-- The viewport computed by `adjustViewport`, written out. -/
theorem adjustViewport_viewport {α : Type} (t : TableModel α) :
    t.adjustViewport.viewport =
      (let vp := if t.cursor < t.viewport then t.cursor else t.viewport
       let vp := if t.cursor ≥ vp + t.visibleRows then t.cursor - t.visibleRows + 1 else vp
       let maxViewport := max 0 ((t.rows.length : Int) - t.visibleRows)
       let vp := if vp > maxViewport then maxViewport else vp
       if vp < 0 then 0 else vp) := rfl

/-- Core lemma: `adjustViewport` re-establishes the full invariant from
nothing more than a valid cursor and a positive window. -/
theorem adjustViewport_invariant {α : Type} (t : TableModel α)
    (hc0 : 0 ≤ t.cursor) (hclen : t.cursor < (t.rows.length : Int))
    (hvr : 1 ≤ t.visibleRows) :
    t.adjustViewport.invariant := by
  unfold TableModel.invariant
  simp only [TableModel.adjustViewport]
  refine ⟨?_, ?_, ?_, ?_, fun _ => ⟨hc0, hclen⟩⟩ <;> split_ifs <;> omega

set_option maxHeartbeats 1600000 in
/-- A key processed by the table never changes the row list. -/
theorem update_rows_eq {α : Type} (t : TableModel α) (k : String) :
    (t.update k).1.rows = t.rows := by
  unfold TableModel.update
  split_ifs <;> rfl

set_option maxHeartbeats 3000000 in
/-- One key step preserves the table invariant on a non-empty table. -/
theorem update_invariant {α : Type} (t : TableModel α) (k : String)
    (hinv : t.invariant) (hne : t.rows ≠ []) :
    (t.update k).1.invariant := by
  obtain ⟨h1, h2, h3, h4, h5⟩ := hinv
  obtain ⟨hc0, hclen⟩ := h5 hne
  have hvr : 1 ≤ t.visibleRows := by omega
  have hlen1 : 1 ≤ (t.rows.length : Int) := by omega
  have hsame : TableModel.invariant t := ⟨h1, h2, h3, h4, fun _ => ⟨hc0, hclen⟩⟩
  unfold TableModel.update
  split_ifs <;>
    first
      | exact hsame
      | (apply adjustViewport_invariant <;> simp <;> omega)

/-- Key-sequence preservation, by induction on the sequence. -/
theorem updateKeys_invariant {α : Type} (t : TableModel α) (keys : List String)
    (hinv : t.invariant) (hne : t.rows ≠ []) :
    (t.updateKeys keys).invariant := by
  induction keys generalizing t with
  | nil => exact hinv
  | cons k ks ih =>
    have hstep : TableModel.updateKeys t (k :: ks) =
        TableModel.updateKeys (t.update k).1 ks := rfl
    rw [hstep]
    refine ih _ (update_invariant t k hinv hne) ?_
    rw [update_rows_eq]
    exact hne

/-- C1, counterexample to the claim as stated: an empty focused table with
cursor 0, viewport 0 and 10 visible rows satisfies the table invariant, yet
a single pgdown while focused sets the cursor to `min (len-1) (cursor+10) =
-1`, after which `viewport ≤ cursor` fails (viewport is re-clamped to 0).
So the invariant is not preserved for every row count: it fails for an
empty row list. -/
theorem C1_counterexample :
    (({ rows := [], cursor := 0, viewport := 0, visibleRows := 10,
        focused := true } : TableModel Unit).invariant ∧
     ({ rows := [], cursor := 0, viewport := 0, visibleRows := 10,
        focused := true } : TableModel Unit).focused = true) ∧
    ¬ (({ rows := [], cursor := 0, viewport := 0, visibleRows := 10,
          focused := true } : TableModel Unit).updateKeys ["pgdown"]).invariant := by
  constructor
  · exact ⟨by decide, rfl⟩
  · decide

/-- C1 (amended): for every table state satisfying the invariant whose row
list is NON-EMPTY, any sequence of navigation keys preserves the invariant
`viewport ≤ cursor < viewport + visibleRows`,
`0 ≤ viewport ≤ max 0 (len rows - visibleRows)` and
`0 ≤ cursor < len rows`.  (For an empty row list the claim fails: pgdown
drives the cursor to -1, see the counterexample.) -/
theorem C1_table_nav_invariant {α : Type} (t : TableModel α) (keys : List String)
    (hinv : t.invariant) (hne : t.rows ≠ [])
    (hkeys : ∀ k ∈ keys, k ∈ tableNavKeys) :
    (t.updateKeys keys).invariant :=
  updateKeys_invariant t keys hinv hne

/-- Witness for C1 (amended) at a concrete 3-row table with a 2-row window
and a concrete key sequence. -/
theorem C1_table_nav_invariant_witness :
    (({ rows := [⟨"r1", ["a"], ()⟩, ⟨"r2", ["b"], ()⟩, ⟨"r3", ["c"], ()⟩],
        cursor := 0, viewport := 0, visibleRows := 2,
        focused := true } : TableModel Unit).invariant ∧
     (["down", "down", "pgdown", "up", "home", "end"].all
        (fun k => k ∈ tableNavKeys))) ∧
    (({ rows := [⟨"r1", ["a"], ()⟩, ⟨"r2", ["b"], ()⟩, ⟨"r3", ["c"], ()⟩],
        cursor := 0, viewport := 0, visibleRows := 2,
        focused := true } : TableModel Unit).updateKeys
          ["down", "down", "pgdown", "up", "home", "end"]).invariant :=
  ⟨⟨by decide, by decide⟩,
    C1_table_nav_invariant _ _ (by decide) (by decide) (by decide)⟩

/-- Helper: removing the id of the final row, when no earlier row carries
that id, yields exactly the prefix. -/
theorem removeFirstRow_append_last {α : Type} (rs : List (TableRow α)) (r : TableRow α)
    (hid : r.id ∉ rs.map TableRow.id) :
    removeFirstRow r.id (rs ++ [r]) = some rs := by
  induction rs with
  | nil => simp [removeFirstRow]
  | cons a as ih =>
    simp only [List.map_cons, List.mem_cons, not_or] at hid
    have ha : ¬ (a.id = r.id) := fun h => hid.1 h.symm
    rw [List.cons_append]
    show (if a.id = r.id then some (as ++ [r])
      else (removeFirstRow r.id (as ++ [r])).map (fun l => a :: l)) = some (a :: as)
    rw [if_neg ha, ih hid.2]
    rfl

/-- Helper: removing an id that occurs in the list removes exactly one row. -/
theorem removeFirstRow_length {α : Type} (id : String) (rows : List (TableRow α))
    (hmem : id ∈ rows.map TableRow.id) :
    ∃ rs', removeFirstRow id rows = some rs' ∧ rs'.length + 1 = rows.length := by
  induction rows with
  | nil => simp at hmem
  | cons a as ih =>
    by_cases ha : a.id = id
    · exact ⟨as, by simp [removeFirstRow, ha], rfl⟩
    · have hmem' : id ∈ as.map TableRow.id := by
        simp only [List.map_cons, List.mem_cons] at hmem
        exact hmem.resolve_left (fun h => ha h.symm)
      obtain ⟨rs', hr, hl⟩ := ih hmem'
      exact ⟨a :: rs', by simp [removeFirstRow, ha, hr], by simp [← hl]⟩

/-- Helper: an empty row list always yields an empty selection. -/
theorem getSelectedRow_none_of_nil {α : Type} (t : TableModel α) (h : t.rows = []) :
    t.getSelectedRow = none := by
  unfold TableModel.getSelectedRow
  split_ifs with hc
  · exfalso
    rw [h] at hc
    simp at hc
    omega
  · rfl

/-- C6: removing the currently-selected row when it is the last row moves the
cursor to the new last row, or leaves an empty selection when the table
becomes empty; and in general (for an in-bounds cursor) removal decrements
the cursor exactly when the cursor would otherwise exceed the new last index
and the remaining list is non-empty. -/
theorem C6_removeRow :
    (∀ (α : Type) (t : TableModel α) (rs : List (TableRow α)) (r : TableRow α),
      t.rows = rs ++ [r] → t.cursor = (rs.length : Int) →
      r.id ∉ rs.map TableRow.id →
        (t.removeRow r.id).rows = rs ∧
        (rs ≠ [] → (t.removeRow r.id).cursor = (rs.length : Int) - 1) ∧
        (rs = [] → (t.removeRow r.id).getSelectedRow = none)) ∧
    (∀ (α : Type) (t : TableModel α) (id : String),
      id ∈ t.rows.map TableRow.id → 0 ≤ t.cursor →
      t.cursor < (t.rows.length : Int) →
        ((t.removeRow id).cursor = t.cursor - 1 ↔
          (t.cursor > ((t.rows.length : Int) - 1) - 1 ∧
           (t.rows.length : Int) - 1 ≠ 0))) := by
  constructor
  · intro α t rs r hrows hcur hid
    have hrem : removeFirstRow r.id t.rows = some rs := by
      rw [hrows]; exact removeFirstRow_append_last rs r hid
    unfold TableModel.removeRow
    rw [hrem]
    simp only [adjustViewport_rows, adjustViewport_cursor]
    refine ⟨by split_ifs <;> rfl, ?_, ?_⟩
    · intro hne
      have hlen : 0 < rs.length := List.length_pos.mpr hne
      split_ifs with h
      · simp [hcur]
      · exfalso
        apply h
        constructor
        · simp [hcur]
        · simp [hcur]; exact_mod_cast hlen
    · intro hrs
      subst hrs
      apply getSelectedRow_none_of_nil
      rw [adjustViewport_rows]
      split_ifs <;> rfl
  · intro α t id hmem hc0 hclen
    obtain ⟨rs', hrem, hlen⟩ := removeFirstRow_length id t.rows hmem
    unfold TableModel.removeRow
    rw [hrem]
    simp only [adjustViewport_cursor]
    have hlen' : (rs'.length : Int) + 1 = (t.rows.length : Int) := by exact_mod_cast hlen
    constructor
    · intro hdec
      split_ifs at hdec with h
      · simp only at hdec
        obtain ⟨ha, hb⟩ := h
        constructor <;> omega
      · simp only at hdec
        omega
    · intro ⟨ha, hb⟩
      split_ifs with h
      · rfl
      · exfalso
        apply h
        constructor <;> omega

/-- Witness for C6 at a concrete two-row table with the last row selected. -/
theorem C6_removeRow_witness :
    (({ rows := [⟨"a", ["x"], ()⟩, ⟨"b", ["y"], ()⟩], cursor := 1, viewport := 0,
        visibleRows := 5, focused := true } : TableModel Unit).removeRow "b").rows =
      [⟨"a", ["x"], ()⟩] ∧
    ([(⟨"a", ["x"], ()⟩ : TableRow Unit)] ≠ [] →
      (({ rows := [⟨"a", ["x"], ()⟩, ⟨"b", ["y"], ()⟩], cursor := 1, viewport := 0,
          visibleRows := 5, focused := true } : TableModel Unit).removeRow "b").cursor =
        ([(⟨"a", ["x"], ()⟩ : TableRow Unit)].length : Int) - 1) ∧
    ([(⟨"a", ["x"], ()⟩ : TableRow Unit)] = [] →
      (({ rows := [⟨"a", ["x"], ()⟩, ⟨"b", ["y"], ()⟩], cursor := 1, viewport := 0,
          visibleRows := 5, focused := true } : TableModel Unit).removeRow "b").getSelectedRow =
        none) :=
  C6_removeRow.1 Unit
    { rows := [⟨"a", ["x"], ()⟩, ⟨"b", ["y"], ()⟩], cursor := 1, viewport := 0,
      visibleRows := 5, focused := true }
    [⟨"a", ["x"], ()⟩] ⟨"b", ["y"], ()⟩ rfl (by decide) (by decide)

/-! ## ModalForm component (`components.ModalModel`) -/

/-- Go `components.FieldType`. -/
inductive FieldType where
  | text
  | number
  | select
  | checkbox
deriving DecidableEq

/-- Go `components.FormField`.  The Go field `Type` is called `ftype` here
because `Type` is reserved in Lean. -/
structure FormField where
  key : String
  label : String
  ftype : FieldType
  value : String
  options : List String
  required : Bool
  placeholder : String
  width : Int
deriving DecidableEq

/-- The message a modal command delivers (Go `ModalSaveMsg` /
`ModalCancelMsg`).  The Go `map[string]string` of values is modeled as an
association list in field order. -/
inductive ModalMsg where
  | save (values : List (String × String))
  | cancel
deriving DecidableEq

/-- A command returned by the modal: either an emission of a modal message,
or the `textinput.Blink` command issued when a textual field gains focus. -/
inductive ModalCmd where
  | emit (msg : ModalMsg)
  | blink
deriving DecidableEq

/-- Go `components.ModalModel`.  The text inputs are modeled by their string
values (`inputs`); styles are render-only and omitted. -/
structure ModalModel where
  title : String
  fields : List FormField
  cursor : Int
  focused : Bool
  visible : Bool
  width : Int
  height : Int
  inputs : List String
  selectCursors : List Int
  checkboxValues : List Bool
deriving DecidableEq

/-- Helper for `NewModal`: the index of the first option equal to the value,
or 0 when no option matches (the Go loop leaves the zero value in place). -/
def optionIndex (opts : List String) (v : String) : Int :=
  match opts.indexOf? v with
  | some i => (i : Int)
  | none => 0

/-- Go `components.NewModal`: visible, focused, cursor on the first field,
text inputs seeded from the field values, select cursors at the current
option, checkbox booleans parsed from the value. -/
def NewModal (title : String) (fields : List FormField) : ModalModel :=
  { title := title
    fields := fields
    cursor := 0
    focused := true
    visible := true
    width := 60
    height := 20
    inputs := fields.map (fun f => f.value)
    selectCursors := fields.map (fun f =>
      if f.ftype = FieldType.select then optionIndex f.options f.value else 0)
    checkboxValues := fields.map (fun f =>
      if f.ftype = FieldType.checkbox then
        f.value == "true" || f.value == "1" || f.value == "yes"
      else false) }

/-- Go `ModalModel.SetSize`. -/
def ModalModel.setSize (m : ModalModel) (width height : Int) : ModalModel :=
  { m with width := min 60 (width - 10),
           height := min ((m.fields.length : Int) * 3 + 8) (height - 6) }

/-- Go `ModalModel.Show`. -/
def ModalModel.show (m : ModalModel) : ModalModel :=
  { m with visible := true, focused := true, cursor := 0 }

/-- Go `ModalModel.Hide`. -/
def ModalModel.hide (m : ModalModel) : ModalModel :=
  { m with visible := false, focused := false }

/-- Go `ModalModel.IsVisible`. -/
def ModalModel.isVisible (m : ModalModel) : Bool :=
  m.visible

/-- Go `ModalModel.GetValues`, walking the fields positionally in step with
the `inputs` / `selectCursors` / `checkboxValues` slices.  `none` models the
Go panic of indexing a slice that is shorter than the field list (or a
negative select cursor); a select field whose cursor is not below its option
count contributes no entry, exactly as in the source. -/
def getValuesAux : List FormField → List String → List Int → List Bool →
    Option (List (String × String))
  | [], _, _, _ => some []
  | f :: fs, inputs, selCs, cbs =>
    match f.ftype with
    | FieldType.text =>
      match inputs with
      | [] => none
      | v :: _ => (getValuesAux fs inputs.tail selCs.tail cbs.tail).map
          (fun rest => (f.key, v) :: rest)
    | FieldType.number =>
      match inputs with
      | [] => none
      | v :: _ => (getValuesAux fs inputs.tail selCs.tail cbs.tail).map
          (fun rest => (f.key, v) :: rest)
    | FieldType.select =>
      match selCs with
      | [] => none
      | c :: _ =>
        if 0 ≤ c then
          if h : c.toNat < f.options.length then
            (getValuesAux fs inputs.tail selCs.tail cbs.tail).map
              (fun rest => (f.key, f.options.get ⟨c.toNat, h⟩) :: rest)
          else getValuesAux fs inputs.tail selCs.tail cbs.tail
        else none
    | FieldType.checkbox =>
      match cbs with
      | [] => none
      | b :: _ => (getValuesAux fs inputs.tail selCs.tail cbs.tail).map
          (fun rest => (f.key, if b then "true" else "false") :: rest)

/-- Go `ModalModel.GetValues`. -/
def ModalModel.getValues (m : ModalModel) : Option (List (String × String)) :=
  getValuesAux m.fields m.inputs m.selectCursors m.checkboxValues

/-- The required-field validation loop of the Go `ctrl+s` handler:
`some true` when the first required field with an empty input is found,
`some false` when every required field has a non-empty input, `none` when a
required field position lies beyond the `inputs` slice (Go panic).  The
input is only indexed for required fields, mirroring the short-circuit
`field.Required and inputs[i].Value() == ""`. -/
def requiredMissing : List FormField → List String → Option Bool
  | [], _ => some false
  | f :: fs, inputs =>
    if f.required then
      match inputs with
      | [] => none
      | v :: rest => if v = "" then some true else requiredMissing fs rest
    else requiredMissing fs inputs.tail

/-- Value-level model of the external bubbles textinput/textarea `Update` on
a key message: a single-character key is appended to the value; every other
key (cursor movement, blink ticks, …) leaves the value unchanged.  The
component itself is an external library; the properties proved here only
rely on it touching nothing but the focused input's value. -/
def textinputUpdate (value key : String) : String :=
  if key.length = 1 then value ++ key else value

/-- The code after the Go key switch: when the cursor is inside the `inputs`
slice and the current field is textual, the focused text input processes the
message (`f` is the value transformation of that external update).  A cursor
that is inside `inputs` but outside `fields` makes `m.fields[m.cursor]`
panic (`none`). -/
def ModalModel.passthrough (m : ModalModel) (f : String → String) :
    Option (ModalModel × List ModalCmd) :=
  if m.cursor < (m.inputs.length : Int) then
    if h : 0 ≤ m.cursor ∧ m.cursor.toNat < m.fields.length then
      let fld := m.fields.get ⟨m.cursor.toNat, h.2⟩
      if fld.ftype = FieldType.text ∨ fld.ftype = FieldType.number then
        let newInputs := m.inputs.set m.cursor.toNat (f (m.inputs.getD m.cursor.toNat ""))
        some ({ m with inputs := newInputs }, [])
      else some (m, [])
    else none
  else some (m, [])

/-- Landing on field index `c` after tab / shift+tab: store the cursor and,
when the new field is textual, focus its input (which requires the index to
be inside the `inputs` slice) and return a blink command. -/
def ModalModel.focusStep (m : ModalModel) (c : Int) :
    Option (ModalModel × List ModalCmd) :=
  if h : 0 ≤ c ∧ c.toNat < m.fields.length then
    let f := m.fields.get ⟨c.toNat, h.2⟩
    if f.ftype = FieldType.text ∨ f.ftype = FieldType.number then
      if c.toNat < m.inputs.length then
        some ({ m with cursor := c }, [ModalCmd.blink])
      else none
    else some ({ m with cursor := c }, [])
  else none

/-- Go `ModalModel.Update` on a key message.  `none` marks the inputs on
which the Go code panics: `m.inputs[m.cursor].Blur()` with the cursor outside
the `inputs` slice, the modulo by a zero field count in the tab branches, and
slice indexing by an out-of-range cursor in the remaining branches.  Go's
truncating `%` on `int` is `Int.tmod`. -/
def ModalModel.update (m : ModalModel) (key : String) :
    Option (ModalModel × List ModalCmd) :=
  if ¬ m.visible ∨ ¬ m.focused then some (m, [])
  else if key = "esc" then some (m.hide, [ModalCmd.emit ModalMsg.cancel])
  else if key = "ctrl+s" then
    match requiredMissing m.fields m.inputs with
    | none => none
    | some true => some (m, [])
    | some false =>
      match m.getValues with
      | none => none
      | some values => some (m.hide, [ModalCmd.emit (ModalMsg.save values)])
  else if key = "tab" ∨ key = "down" then
    if 0 ≤ m.cursor ∧ m.cursor < (m.inputs.length : Int) then
      if (m.fields.length : Int) = 0 then none
      else m.focusStep ((m.cursor + 1).tmod (m.fields.length : Int))
    else none
  else if key = "shift+tab" ∨ key = "up" then
    if 0 ≤ m.cursor ∧ m.cursor < (m.inputs.length : Int) then
      if (m.fields.length : Int) = 0 then none
      else m.focusStep
        ((m.cursor - 1 + (m.fields.length : Int)).tmod (m.fields.length : Int))
    else none
  else if key = "left" then
    if h : 0 ≤ m.cursor ∧ m.cursor.toNat < m.fields.length then
      let f := m.fields.get ⟨m.cursor.toNat, h.2⟩
      if f.ftype = FieldType.select then
        if 0 < f.options.length then
          if m.cursor.toNat < m.selectCursors.length then
            let c := (m.selectCursors.getD m.cursor.toNat 0 - 1 +
              (f.options.length : Int)).tmod (f.options.length : Int)
            some ({ m with selectCursors := m.selectCursors.set m.cursor.toNat c }, [])
          else none
        else some (m, [])
      else m.passthrough (fun v => textinputUpdate v key)
    else none
  else if key = "right" then
    if h : 0 ≤ m.cursor ∧ m.cursor.toNat < m.fields.length then
      let f := m.fields.get ⟨m.cursor.toNat, h.2⟩
      if f.ftype = FieldType.select then
        if 0 < f.options.length then
          if m.cursor.toNat < m.selectCursors.length then
            let c := (m.selectCursors.getD m.cursor.toNat 0 + 1).tmod
              (f.options.length : Int)
            some ({ m with selectCursors := m.selectCursors.set m.cursor.toNat c }, [])
          else none
        else some (m, [])
      else m.passthrough (fun v => textinputUpdate v key)
    else none
  else if key = " " ∨ key = "enter" then
    if h : 0 ≤ m.cursor ∧ m.cursor.toNat < m.fields.length then
      let f := m.fields.get ⟨m.cursor.toNat, h.2⟩
      if f.ftype = FieldType.checkbox then
        if m.cursor.toNat < m.checkboxValues.length then
          let b := ! m.checkboxValues.getD m.cursor.toNat false
          some ({ m with checkboxValues := m.checkboxValues.set m.cursor.toNat b }, [])
        else none
      else if f.ftype = FieldType.select then
        if 0 < f.options.length then
          if m.cursor.toNat < m.selectCursors.length then
            let c := (m.selectCursors.getD m.cursor.toNat 0 + 1).tmod
              (f.options.length : Int)
            some ({ m with selectCursors := m.selectCursors.set m.cursor.toNat c }, [])
          else none
        else some (m, [])
      else m.passthrough (fun v => textinputUpdate v key)
    else none
  else m.passthrough (fun v => textinputUpdate v key)

/-- Go `ModalModel.Update` on a message that is not a key message: the key
switch is skipped and the message reaches only the focused text input, whose
value it does not change. -/
def ModalModel.updateNonKey (m : ModalModel) : Option (ModalModel × List ModalCmd) :=
  if ¬ m.visible ∨ ¬ m.focused then some (m, [])
  else m.passthrough (fun v => v)

/-- Well-formedness of a modal as established by `NewModal` with a non-empty
field list: cursor in range, the three parallel slices as long as the field
list, select cursors non-negative. -/
def ModalModel.wf (m : ModalModel) : Prop :=
  m.fields ≠ [] ∧ 0 ≤ m.cursor ∧ m.cursor < (m.fields.length : Int) ∧
  m.inputs.length = m.fields.length ∧
  m.selectCursors.length = m.fields.length ∧
  m.checkboxValues.length = m.fields.length ∧
  (∀ c ∈ m.selectCursors, 0 ≤ c)

instance (m : ModalModel) : Decidable m.wf := by
  unfold ModalModel.wf
  infer_instance

/-- The validation loop computes the `any`-scan of required fields against
their inputs whenever the `inputs` slice is long enough. -/
theorem requiredMissing_eq (fs : List FormField) (vs : List String)
    (hlen : fs.length ≤ vs.length) :
    requiredMissing fs vs =
      some ((fs.zip vs).any (fun p => p.1.required && p.2 == "")) := by
  induction fs generalizing vs with
  | nil => simp [requiredMissing]
  | cons f fs ih =>
    cases vs with
    | nil => simp at hlen
    | cons v vs' =>
      simp only [List.length_cons] at hlen
      have hlen' : fs.length ≤ vs'.length := by omega
      by_cases hr : f.required
      · by_cases hv : v = ""
        · simp [requiredMissing, hr, hv]
        · have hbeq : (v == "") = false := by
            simp [hv]
          simp [requiredMissing, hr, hv, ih vs' hlen', hbeq]
      · have hbr : f.required = false := by
          simp [hr]
        simp [requiredMissing, hr, ih vs' hlen', hbr]

/-- `getValuesAux` never panics when all three slices are at least as long as
the field list and the select cursors are non-negative. -/
theorem getValuesAux_isSome (fs : List FormField) (vs : List String)
    (cs : List Int) (bs : List Bool)
    (hv : fs.length ≤ vs.length) (hc : fs.length ≤ cs.length)
    (hb : fs.length ≤ bs.length) (hpos : ∀ c ∈ cs, 0 ≤ c) :
    (getValuesAux fs vs cs bs).isSome := by
  induction fs generalizing vs cs bs with
  | nil => simp [getValuesAux]
  | cons f fs ih =>
    have hv' : fs.length ≤ vs.tail.length := by
      simp only [List.length_tail, List.length_cons] at *; omega
    have hc' : fs.length ≤ cs.tail.length := by
      simp only [List.length_tail, List.length_cons] at *; omega
    have hb' : fs.length ≤ bs.tail.length := by
      simp only [List.length_tail, List.length_cons] at *; omega
    have hpos' : ∀ c ∈ cs.tail, 0 ≤ c := fun c h => hpos c (List.mem_of_mem_tail h)
    have hrec := ih vs.tail cs.tail bs.tail hv' hc' hb' hpos'
    cases hft : f.ftype with
    | text =>
      cases vs with
      | nil => simp at hv
      | cons v vs'' => simpa [getValuesAux, hft] using hrec
    | number =>
      cases vs with
      | nil => simp at hv
      | cons v vs'' => simpa [getValuesAux, hft] using hrec
    | select =>
      cases cs with
      | nil => simp at hc
      | cons c cs'' =>
        have hc0 : 0 ≤ c := hpos c (List.mem_cons_self c cs'')
        simp only [getValuesAux, hft, if_pos hc0]
        split
        · simpa using hrec
        · simpa using hrec
    | checkbox =>
      cases bs with
      | nil => simp at hb
      | cons b bs'' => simpa [getValuesAux, hft] using hrec

/-- Every non-select field contributes its key to the computed value list. -/
theorem getValuesAux_key_mem (fs : List FormField) (vs : List String)
    (cs : List Int) (bs : List Bool) (vals : List (String × String))
    (hgv : getValuesAux fs vs cs bs = some vals) :
    ∀ f ∈ fs, f.ftype ≠ FieldType.select → f.key ∈ vals.map Prod.fst := by
  induction fs generalizing vs cs bs vals with
  | nil => intro f hf; simp at hf
  | cons g gs ih =>
    intro f hf hsel
    rcases List.mem_cons.mp hf with hfg | hfs
    · subst hfg
      cases hft : f.ftype with
      | text =>
        cases vs with
        | nil => simp [getValuesAux, hft] at hgv
        | cons v vs'' =>
          simp only [getValuesAux, hft, List.tail_cons] at hgv
          rcases Option.map_eq_some'.mp hgv with ⟨rest, _, hvals⟩
          subst hvals
          simp
      | number =>
        cases vs with
        | nil => simp [getValuesAux, hft] at hgv
        | cons v vs'' =>
          simp only [getValuesAux, hft, List.tail_cons] at hgv
          rcases Option.map_eq_some'.mp hgv with ⟨rest, _, hvals⟩
          subst hvals
          simp
      | select => exact absurd hft hsel
      | checkbox =>
        cases bs with
        | nil => simp [getValuesAux, hft] at hgv
        | cons b bs'' =>
          simp only [getValuesAux, hft, List.tail_cons] at hgv
          rcases Option.map_eq_some'.mp hgv with ⟨rest, _, hvals⟩
          subst hvals
          simp
    · cases hft : g.ftype with
      | text =>
        cases vs with
        | nil => simp [getValuesAux, hft] at hgv
        | cons v vs'' =>
          simp only [getValuesAux, hft, List.tail_cons] at hgv
          rcases Option.map_eq_some'.mp hgv with ⟨rest, hrest, hvals⟩
          subst hvals
          simp only [List.map_cons, List.mem_cons]
          exact Or.inr (ih _ _ _ _ hrest f hfs hsel)
      | number =>
        cases vs with
        | nil => simp [getValuesAux, hft] at hgv
        | cons v vs'' =>
          simp only [getValuesAux, hft, List.tail_cons] at hgv
          rcases Option.map_eq_some'.mp hgv with ⟨rest, hrest, hvals⟩
          subst hvals
          simp only [List.map_cons, List.mem_cons]
          exact Or.inr (ih _ _ _ _ hrest f hfs hsel)
      | select =>
        cases cs with
        | nil => simp [getValuesAux, hft] at hgv
        | cons c cs'' =>
          simp only [getValuesAux, hft, List.tail_cons] at hgv
          by_cases hc0 : 0 ≤ c
          · rw [if_pos hc0] at hgv
            by_cases hlt : c.toNat < g.options.length
            · rw [dif_pos hlt] at hgv
              rcases Option.map_eq_some'.mp hgv with ⟨rest, hrest, hvals⟩
              subst hvals
              simp only [List.map_cons, List.mem_cons]
              exact Or.inr (ih _ _ _ _ hrest f hfs hsel)
            · rw [dif_neg hlt] at hgv
              exact ih _ _ _ _ hgv f hfs hsel
          · rw [if_neg hc0] at hgv
            simp at hgv
      | checkbox =>
        cases bs with
        | nil => simp [getValuesAux, hft] at hgv
        | cons b bs'' =>
          simp only [getValuesAux, hft, List.tail_cons] at hgv
          rcases Option.map_eq_some'.mp hgv with ⟨rest, hrest, hvals⟩
          subst hvals
          simp only [List.map_cons, List.mem_cons]
          exact Or.inr (ih _ _ _ _ hrest f hfs hsel)


/-- The passthrough succeeds, leaving cursor and fields unchanged, whenever
the cursor is a valid field index and the inputs slice is full-length. -/
theorem passthrough_some (m : ModalModel) (f : String → String)
    (h0 : 0 ≤ m.cursor) (hlt : m.cursor < (m.fields.length : Int))
    (hinp : m.inputs.length = m.fields.length) :
    ∃ m' cs, m.passthrough f = some (m', cs) ∧ m'.cursor = m.cursor ∧
      m'.fields = m.fields := by
  unfold ModalModel.passthrough
  have hci : m.cursor < (m.inputs.length : Int) := by omega
  have hb : m.cursor.toNat < m.fields.length := by omega
  rw [if_pos hci, dif_pos ⟨h0, hb⟩]
  dsimp only
  by_cases hty : (m.fields.get ⟨m.cursor.toNat, hb⟩).ftype = FieldType.text ∨
      (m.fields.get ⟨m.cursor.toNat, hb⟩).ftype = FieldType.number
  · rw [if_pos hty]
    exact ⟨_, _, rfl, rfl, rfl⟩
  · rw [if_neg hty]
    exact ⟨_, _, rfl, rfl, rfl⟩

/-- Landing on a valid field index always succeeds when the inputs slice is
full-length, and stores that index as the new cursor. -/
theorem focusStep_some (m : ModalModel) (c : Int) (h0 : 0 ≤ c)
    (hlt : c < (m.fields.length : Int)) (hinp : m.inputs.length = m.fields.length) :
    ∃ m' cs, m.focusStep c = some (m', cs) ∧ m'.cursor = c ∧ m'.fields = m.fields := by
  unfold ModalModel.focusStep
  have hb : c.toNat < m.fields.length := by omega
  rw [dif_pos ⟨h0, hb⟩]
  dsimp only
  by_cases hty : (m.fields.get ⟨c.toNat, hb⟩).ftype = FieldType.text ∨
      (m.fields.get ⟨c.toNat, hb⟩).ftype = FieldType.number
  · rw [if_pos hty, if_pos (show c.toNat < m.inputs.length by omega)]
    exact ⟨_, _, rfl, rfl, rfl⟩
  · rw [if_neg hty]
    exact ⟨_, _, rfl, rfl, rfl⟩

/-- C10: the modal Update is total only for modals with at least one field.
Part one: on the modal built by `NewModal` from an EMPTY field list, each of
the focus-cycling keys (tab / down / shift+tab / up) leads the Go handler
into `m.inputs[m.cursor]` on an empty slice and a `% len(m.fields)` with a
zero field count, so the handler is undefined (`none`).  Part two: for every
well-formed modal with at least one field, every key event is handled and
leaves the cursor with `0 ≤ cursor < len fields`. -/
theorem C10_modal_totality :
    ((NewModal "t" []).update "tab" = none ∧
     (NewModal "t" []).update "down" = none ∧
     (NewModal "t" []).update "shift+tab" = none ∧
     (NewModal "t" []).update "up" = none) ∧
    (∀ (m : ModalModel) (k : String), m.wf →
      ∃ m' cs, m.update k = some (m', cs) ∧
        0 ≤ m'.cursor ∧ m'.cursor < (m'.fields.length : Int)) := by
  constructor
  · exact ⟨by decide, by decide, by decide, by decide⟩
  · intro m k hwf
    obtain ⟨hne, h0, hlt, hinp, hsel, hcb, hpos⟩ := hwf
    have hlen0 : m.fields.length ≠ 0 := by
      intro h
      exact hne (List.length_eq_zero.mp h)
    have hlenpos : 0 < (m.fields.length : Int) := by omega
    unfold ModalModel.update
    by_cases hvis : ¬ m.visible ∨ ¬ m.focused
    · rw [if_pos hvis]
      exact ⟨m, [], rfl, h0, hlt⟩
    rw [if_neg hvis]
    by_cases hesc : k = "esc"
    · rw [if_pos hesc]
      exact ⟨_, _, rfl, h0, hlt⟩
    rw [if_neg hesc]
    by_cases hcsk : k = "ctrl+s"
    · rw [if_pos hcsk]
      rw [requiredMissing_eq m.fields m.inputs (le_of_eq hinp.symm)]
      cases hany : (m.fields.zip m.inputs).any (fun p => p.1.required && p.2 == "") with
      | true => exact ⟨m, [], rfl, h0, hlt⟩
      | false =>
        have hs := getValuesAux_isSome m.fields m.inputs m.selectCursors m.checkboxValues
          (le_of_eq hinp.symm) (le_of_eq hsel.symm) (le_of_eq hcb.symm) hpos
        obtain ⟨vals, hvals⟩ := Option.isSome_iff_exists.mp hs
        have hgv : m.getValues = some vals := hvals
        rw [hgv]
        exact ⟨_, _, rfl, h0, hlt⟩
    rw [if_neg hcsk]
    by_cases htab : k = "tab" ∨ k = "down"
    · rw [if_pos htab, if_pos ⟨h0, by omega⟩,
        if_neg (by omega : ¬ ((m.fields.length : Int) = 0))]
      have hc0' : 0 ≤ (m.cursor + 1).tmod (m.fields.length : Int) := by
        rw [@Int.tmod_eq_emod (m.cursor + 1) (m.fields.length : Int)
          (by omega) (by omega)]
        exact Int.emod_nonneg _ (by omega)
      have hclt' : (m.cursor + 1).tmod (m.fields.length : Int) <
          (m.fields.length : Int) := by
        rw [@Int.tmod_eq_emod (m.cursor + 1) (m.fields.length : Int)
          (by omega) (by omega)]
        exact Int.emod_lt_of_pos _ hlenpos
      obtain ⟨m', cs, hstep, hcur, hfields⟩ := focusStep_some m _ hc0' hclt' hinp
      refine ⟨m', cs, hstep, ?_, ?_⟩
      · rw [hcur]; exact hc0'
      · rw [hcur, hfields]; exact hclt'
    rw [if_neg htab]
    by_cases hstab : k = "shift+tab" ∨ k = "up"
    · rw [if_pos hstab, if_pos ⟨h0, by omega⟩,
        if_neg (by omega : ¬ ((m.fields.length : Int) = 0))]
      have hc0' : 0 ≤ (m.cursor - 1 + (m.fields.length : Int)).tmod
          (m.fields.length : Int) := by
        rw [@Int.tmod_eq_emod (m.cursor - 1 + (m.fields.length : Int))
          (m.fields.length : Int) (by omega) (by omega)]
        exact Int.emod_nonneg _ (by omega)
      have hclt' : (m.cursor - 1 + (m.fields.length : Int)).tmod
          (m.fields.length : Int) < (m.fields.length : Int) := by
        rw [@Int.tmod_eq_emod (m.cursor - 1 + (m.fields.length : Int))
          (m.fields.length : Int) (by omega) (by omega)]
        exact Int.emod_lt_of_pos _ hlenpos
      obtain ⟨m', cs, hstep, hcur, hfields⟩ := focusStep_some m _ hc0' hclt' hinp
      refine ⟨m', cs, hstep, ?_, ?_⟩
      · rw [hcur]; exact hc0'
      · rw [hcur, hfields]; exact hclt'
    rw [if_neg hstab]
    have hb : m.cursor.toNat < m.fields.length := by omega
    by_cases hleftk : k = "left"
    · rw [if_pos hleftk, dif_pos ⟨h0, hb⟩]
      dsimp only
      by_cases hsel1 : (m.fields.get ⟨m.cursor.toNat, hb⟩).ftype = FieldType.select
      · rw [if_pos hsel1]
        by_cases hopt : 0 < (m.fields.get ⟨m.cursor.toNat, hb⟩).options.length
        · rw [if_pos hopt,
            if_pos (show m.cursor.toNat < m.selectCursors.length by omega)]
          exact ⟨_, _, rfl, h0, hlt⟩
        · rw [if_neg hopt]
          exact ⟨_, _, rfl, h0, hlt⟩
      · rw [if_neg hsel1]
        obtain ⟨m', cs, hp, hc, hf⟩ :=
          passthrough_some m (fun v => textinputUpdate v k) h0 hlt hinp
        refine ⟨m', cs, hp, ?_, ?_⟩
        · rw [hc]; exact h0
        · rw [hc, hf]; exact hlt
    rw [if_neg hleftk]
    by_cases hrightk : k = "right"
    · rw [if_pos hrightk, dif_pos ⟨h0, hb⟩]
      dsimp only
      by_cases hsel1 : (m.fields.get ⟨m.cursor.toNat, hb⟩).ftype = FieldType.select
      · rw [if_pos hsel1]
        by_cases hopt : 0 < (m.fields.get ⟨m.cursor.toNat, hb⟩).options.length
        · rw [if_pos hopt,
            if_pos (show m.cursor.toNat < m.selectCursors.length by omega)]
          exact ⟨_, _, rfl, h0, hlt⟩
        · rw [if_neg hopt]
          exact ⟨_, _, rfl, h0, hlt⟩
      · rw [if_neg hsel1]
        obtain ⟨m', cs, hp, hc, hf⟩ :=
          passthrough_some m (fun v => textinputUpdate v k) h0 hlt hinp
        refine ⟨m', cs, hp, ?_, ?_⟩
        · rw [hc]; exact h0
        · rw [hc, hf]; exact hlt
    rw [if_neg hrightk]
    by_cases hspc : k = " " ∨ k = "enter"
    · rw [if_pos hspc, dif_pos ⟨h0, hb⟩]
      dsimp only
      by_cases hcb1 : (m.fields.get ⟨m.cursor.toNat, hb⟩).ftype = FieldType.checkbox
      · rw [if_pos hcb1,
          if_pos (show m.cursor.toNat < m.checkboxValues.length by omega)]
        exact ⟨_, _, rfl, h0, hlt⟩
      · rw [if_neg hcb1]
        by_cases hsel1 : (m.fields.get ⟨m.cursor.toNat, hb⟩).ftype = FieldType.select
        · rw [if_pos hsel1]
          by_cases hopt : 0 < (m.fields.get ⟨m.cursor.toNat, hb⟩).options.length
          · rw [if_pos hopt,
              if_pos (show m.cursor.toNat < m.selectCursors.length by omega)]
            exact ⟨_, _, rfl, h0, hlt⟩
          · rw [if_neg hopt]
            exact ⟨_, _, rfl, h0, hlt⟩
        · rw [if_neg hsel1]
          obtain ⟨m', cs, hp, hc, hf⟩ :=
            passthrough_some m (fun v => textinputUpdate v k) h0 hlt hinp
          refine ⟨m', cs, hp, ?_, ?_⟩
          · rw [hc]; exact h0
          · rw [hc, hf]; exact hlt
    rw [if_neg hspc]
    obtain ⟨m', cs, hp, hc, hf⟩ :=
      passthrough_some m (fun v => textinputUpdate v k) h0 hlt hinp
    refine ⟨m', cs, hp, ?_, ?_⟩
    · rw [hc]; exact h0
    · rw [hc, hf]; exact hlt

/-- Witness for C10 part two on a concrete one-field modal and the tab key. -/
theorem C10_modal_totality_witness :
    (NewModal "W" [⟨"name", "Name", FieldType.text, "", [], true, "", 0⟩]).wf ∧
    (∃ m' cs,
      (NewModal "W" [⟨"name", "Name", FieldType.text, "", [], true, "", 0⟩]).update
        "tab" = some (m', cs) ∧
      0 ≤ m'.cursor ∧ m'.cursor < (m'.fields.length : Int)) :=
  ⟨by decide, C10_modal_totality.2 _ "tab" (by decide)⟩


/-- C5 (amended): on a visible, focused modal, pressing ctrl+s while some
required field has an empty input emits nothing and leaves the modal
unchanged (still visible); when every required field is non-empty it emits
exactly one save message with the computed value list and hides the modal —
the value list contains the key of every NON-SELECT field (a select field
whose option cursor is not below its option count, in particular one with an
empty option list, contributes no entry — see the counterexample); esc emits
a cancel message and hides the modal without emitting values. -/
theorem C5_modal_save :
    (∀ m : ModalModel, m.visible = true → m.focused = true →
      m.fields.length ≤ m.inputs.length →
      ((m.fields.zip m.inputs).any (fun p => p.1.required && p.2 == "")) = true →
      m.update "ctrl+s" = some (m, [])) ∧
    (∀ (m : ModalModel) (vals : List (String × String)),
      m.visible = true → m.focused = true →
      m.fields.length ≤ m.inputs.length →
      ((m.fields.zip m.inputs).any (fun p => p.1.required && p.2 == "")) = false →
      m.getValues = some vals →
      m.update "ctrl+s" = some (m.hide, [ModalCmd.emit (ModalMsg.save vals)]) ∧
      (∀ f ∈ m.fields, f.ftype ≠ FieldType.select → f.key ∈ vals.map Prod.fst)) ∧
    (∀ m : ModalModel, m.visible = true → m.focused = true →
      m.update "esc" = some (m.hide, [ModalCmd.emit ModalMsg.cancel])) := by
  refine ⟨?_, ?_, ?_⟩
  · intro m hv hf hlen hany
    unfold ModalModel.update
    rw [if_neg (by simp [hv, hf])]
    rw [if_neg (by decide : ¬ ("ctrl+s" : String) = "esc")]
    rw [if_pos (rfl : ("ctrl+s" : String) = "ctrl+s")]
    rw [requiredMissing_eq m.fields m.inputs hlen, hany]
  · intro m vals hv hf hlen hany hgv
    constructor
    · unfold ModalModel.update
      rw [if_neg (by simp [hv, hf])]
      rw [if_neg (by decide : ¬ ("ctrl+s" : String) = "esc")]
      rw [if_pos (rfl : ("ctrl+s" : String) = "ctrl+s")]
      rw [requiredMissing_eq m.fields m.inputs hlen, hany, hgv]
    · have hgv' : getValuesAux m.fields m.inputs m.selectCursors m.checkboxValues =
          some vals := hgv
      exact getValuesAux_key_mem m.fields m.inputs m.selectCursors m.checkboxValues
        vals hgv'
  · intro m hv hf
    unfold ModalModel.update
    rw [if_neg (by simp [hv, hf])]
    rw [if_pos (rfl : ("esc" : String) = "esc")]

/-- Witness for C5 at a concrete modal: a filled required text field plus a
select field with options; ctrl+s emits one save message with both keys. -/
theorem C5_modal_save_witness :
    ((NewModal "Add" [⟨"name", "Name", FieldType.text, "Bob", [], true, "", 0⟩,
        ⟨"damage_type", "Damage Type", FieldType.select, "",
          ["Slashing", "Piercing"], false, "", 0⟩]).fields.zip
      (NewModal "Add" [⟨"name", "Name", FieldType.text, "Bob", [], true, "", 0⟩,
        ⟨"damage_type", "Damage Type", FieldType.select, "",
          ["Slashing", "Piercing"], false, "", 0⟩]).inputs).any
        (fun p => p.1.required && p.2 == "") = false ∧
    ((NewModal "Add" [⟨"name", "Name", FieldType.text, "Bob", [], true, "", 0⟩,
        ⟨"damage_type", "Damage Type", FieldType.select, "",
          ["Slashing", "Piercing"], false, "", 0⟩]).update "ctrl+s" =
      some ((NewModal "Add" [⟨"name", "Name", FieldType.text, "Bob", [], true, "", 0⟩,
        ⟨"damage_type", "Damage Type", FieldType.select, "",
          ["Slashing", "Piercing"], false, "", 0⟩]).hide,
        [ModalCmd.emit (ModalMsg.save
          [("name", "Bob"), ("damage_type", "Slashing")])]) ∧
      (∀ f ∈ (NewModal "Add" [⟨"name", "Name", FieldType.text, "Bob", [], true, "", 0⟩,
          ⟨"damage_type", "Damage Type", FieldType.select, "",
            ["Slashing", "Piercing"], false, "", 0⟩]).fields,
        f.ftype ≠ FieldType.select →
        f.key ∈ ([("name", "Bob"), ("damage_type", "Slashing")] :
          List (String × String)).map Prod.fst)) :=
  ⟨by decide,
    C5_modal_save.2.1 _ [("name", "Bob"), ("damage_type", "Slashing")]
      (by decide) (by decide) (by decide) (by decide) (by decide)⟩

/-- C5, counterexample to "the save message carries the full key-to-value map
of all fields": a (non-required) select field with an empty option list is
omitted from the emitted value map entirely — submitting such a modal emits a
save message whose value map lacks the field key "sel". -/
theorem C5_counterexample :
    (NewModal "T" [⟨"sel", "Sel", FieldType.select, "", [], false, "", 0⟩]).update
        "ctrl+s" =
      some ((NewModal "T" [⟨"sel", "Sel", FieldType.select, "", [], false, "", 0⟩]).hide,
        [ModalCmd.emit (ModalMsg.save [])]) ∧
    "sel" ∈ (NewModal "T" [⟨"sel", "Sel", FieldType.select, "", [], false, "", 0⟩]).fields.map
      FormField.key ∧
    "sel" ∉ ([] : List (String × String)).map Prod.fst := by
  exact ⟨by decide, by decide, by decide⟩


/-! ## SheetScreen (`screens.SheetScreen`) -/

/-- Go `screens.SheetMode`. -/
inductive SheetMode where
  | view
  | editHP
  | editDamage
  | editHeal
  | editNotes
  | editFeatures
  | editBackground
  | addAttack
  | addAction
  | addSpell
  | help
deriving DecidableEq

/-- The character snapshot (`db.Character`), restricted to the fields the
embedded handlers read or write; `pgtype.Text` becomes `Option String`.
The persistence record carries more columns, but they never flow through the
state machine modeled here. -/
structure Character where
  currentHitPoints : Int
  maxHitPoints : Int
  temporaryHitPoints : Int
  notes : String
  featuresTraits : String
  alignment : Option String
deriving DecidableEq

/-- The character-details record (`db.CharacterDetail`), restricted to the
fields read by `openBackgroundModal`; `pgtype.Text` becomes `Option String`. -/
structure CharacterDetail where
  size : Option String
  gender : Option String
  age : Option String
  height : Option String
  weight : Option String
  eyes : Option String
  hair : Option String
  skin : Option String
  faithDeity : Option String
  personalityTraits : Option String
  ideals : Option String
  bonds : Option String
  flaws : Option String
  backstory : Option String
  alliesOrganizations : Option String
deriving DecidableEq

/-- The messages the sheet screen receives (key presses, window sizes, the
sheet's own `StatusMsg` / `ClearStatusMsg` / `CharacterUpdatedMsg`, and the
modal's save/cancel emissions). -/
inductive SheetMsg where
  | key (k : String)
  | windowSize (width height : Int)
  | status (message : String) (isError : Bool)
  | clearStatus
  | modalSave (values : List (String × String))
  | modalCancel
  | characterUpdated (char : Character)
deriving DecidableEq

/-- The commands the sheet screen issues.  Persistence commands
(`updateHPCmd`, the save/delete/toggle commands) run against the external
database collaborator; `tick` is the delayed `ClearStatusMsg` delivery of
`tea.Tick(3*time.Second, ...)`; `blink` is `textinput.Blink` /
`textarea.Blink`; the `emit…` commands deliver a message produced by a child
component back into the update loop. -/
inductive SheetCmd where
  | blink
  | tick (seconds : Nat)
  | navigateBack
  | updateHPCmd (hp : Int)
  | updateNotesCmd (notes : String)
  | updateFeaturesCmd (features : String)
  | saveBackgroundCmd (values : List (String × String))
  | saveAttackCmd (values : List (String × String))
  | saveActionCmd (values : List (String × String))
  | saveSpellCmd (values : List (String × String))
  | deleteSpellCmd (id : String)
  | toggleSpellPreparedCmd (id : String)
  | emitModalSave (values : List (String × String))
  | emitModalCancel
  | emitTableMsg (msg : TableMsg String)
deriving DecidableEq

/-- The persistence collaborator (spec §6) abstracted as an oracle: the rows
`refreshSpellsTable` / `refreshFeaturesTable` build from the synchronous
query for a given filter value (`spellRows` is keyed by the spell-level
filter, `-1` meaning "all"; `featureRows` by the source-type filter, `""`
meaning "all").  A query error corresponds to an empty row list. -/
structure Db where
  spellRows : Int → List (TableRow String)
  featureRows : String → List (TableRow String)

/-- Go `screens.SheetScreen`.  Text inputs and textareas are modeled by
their string values; each table's opaque row payload is the entity id; the
cached child-entity lists that are only read inside external persistence
closures are not part of the state machine and are omitted. -/
structure SheetScreen where
  char : Character
  mode : SheetMode
  tab : Int
  width : Int
  height : Int
  hpInput : String
  damageInput : String
  healInput : String
  notesInput : String
  featuresInput : String
  backgroundModal : Option ModalModel
  attackModal : Option ModalModel
  actionModal : Option ModalModel
  spellModal : Option ModalModel
  skillsTable : TableModel String
  attacksTable : TableModel String
  actionsTable : TableModel String
  inventoryTable : TableModel String
  magicItemsTable : TableModel String
  spellsTable : TableModel String
  featuresTable : TableModel String
  combatFocus : Int
  inventoryFocus : Int
  spellLevelFilter : Int
  featuresFilter : String
  details : Option CharacterDetail
  statusMsg : String
  statusIsErr : Bool
deriving DecidableEq

/-- Model of `fmt.Sscanf(value, "%d", &x)` with the error ignored: skip
leading whitespace, read an optional sign and a maximal run of decimal
digits; when there are no digits the scanned variable keeps its zero value. -/
def scanInt (str : String) : Int :=
  let cs := str.toList.dropWhile (fun c => c = ' ' ∨ c = '\t' ∨ c = '\n')
  let signAndRest : Int × List Char :=
    match cs with
    | '-' :: r => (-1, r)
    | '+' :: r => (1, r)
    | r => (1, r)
  let ds := signAndRest.2.takeWhile Char.isDigit
  if ds = [] then 0
  else signAndRest.1 *
    (ds.foldl (fun n c => 10 * n + ((c.toNat : Int) - ('0'.toNat : Int))) 0)

/-- The field list of `openAttackModal`. -/
def attackFields : List FormField :=
  [⟨"name", "Weapon Name", FieldType.text, "", [], true, "Longsword", 0⟩,
   ⟨"attack_bonus", "Attack Bonus", FieldType.number, "", [], false, "+5", 0⟩,
   ⟨"damage", "Damage", FieldType.text, "", [], false, "1d8+3", 0⟩,
   ⟨"damage_type", "Damage Type", FieldType.select, "",
     ["Slashing", "Piercing", "Bludgeoning", "Fire", "Cold", "Lightning",
      "Acid", "Poison", "Necrotic", "Radiant", "Force", "Psychic", "Thunder"],
     false, "", 0⟩,
   ⟨"range", "Range", FieldType.text, "", [], false, "5 ft or 20/60 ft", 0⟩,
   ⟨"properties", "Properties", FieldType.text, "", [], false, "Versatile, Finesse", 0⟩,
   ⟨"notes", "Notes", FieldType.text, "", [], false, "Additional notes", 0⟩]

/-- The field list of `openActionModal`. -/
def actionFields : List FormField :=
  [⟨"name", "Action Name", FieldType.text, "", [], true, "Second Wind", 0⟩,
   ⟨"action_type", "Type", FieldType.select, "",
     ["action", "bonus action", "reaction", "free", "movement", "other"],
     false, "", 0⟩,
   ⟨"source", "Source", FieldType.text, "", [], false, "Fighter 1", 0⟩,
   ⟨"uses_max", "Max Uses", FieldType.number, "", [], false, "1", 0⟩,
   ⟨"uses_per", "Recharge", FieldType.select, "",
     ["", "short rest", "long rest", "dawn", "dusk"], false, "", 0⟩,
   ⟨"description", "Description", FieldType.text, "", [], false,
     "Regain 1d10 + level HP", 0⟩]

/-- The field list of `openSpellModal`: the level select defaults to the
current filter level, or "0" (cantrips) when the filter shows all. -/
def spellFields (spellLevelFilter : Int) : List FormField :=
  let defaultLevel := if spellLevelFilter ≥ 0 then toString spellLevelFilter else "0"
  [⟨"name", "Spell Name", FieldType.text, "", [], true, "Fireball", 0⟩,
   ⟨"level", "Level", FieldType.select, defaultLevel,
     ["0", "1", "2", "3", "4", "5", "6", "7", "8", "9"], false, "", 0⟩,
   ⟨"school", "School", FieldType.select, "",
     ["Abjuration", "Conjuration", "Divination", "Enchantment", "Evocation",
      "Illusion", "Necromancy", "Transmutation"], false, "", 0⟩,
   ⟨"casting_time", "Casting Time", FieldType.text, "", [], false, "1 action", 0⟩,
   ⟨"range", "Range", FieldType.text, "", [], false, "150 feet", 0⟩,
   ⟨"components", "Components", FieldType.text, "", [], false, "V, S, M", 0⟩,
   ⟨"duration", "Duration", FieldType.text, "", [], false, "Instantaneous", 0⟩,
   ⟨"is_ritual", "Ritual", FieldType.checkbox, "", [], false, "", 0⟩,
   ⟨"is_prepared", "Prepared", FieldType.checkbox, "", [], false, "", 0⟩,
   ⟨"source", "Source", FieldType.text, "", [], false, "PHB", 0⟩]

/-- The string taken from an optional details field (`""` both when the
details row is absent and when the column is NULL). -/
def detailStr (details : Option CharacterDetail)
    (f : CharacterDetail → Option String) : String :=
  match details with
  | none => ""
  | some d => (f d).getD ""

/-- The field list of `openBackgroundModal`, seeded from the cached details
row and the character's alignment. -/
def backgroundFields (details : Option CharacterDetail)
    (alignment : Option String) : List FormField :=
  [⟨"size", "Size", FieldType.select, detailStr details (fun d => d.size),
     ["Tiny", "Small", "Medium", "Large", "Huge", "Gargantuan"], false, "", 0⟩,
   ⟨"alignment", "Alignment", FieldType.select, alignment.getD "",
     ["Lawful Good", "Neutral Good", "Chaotic Good", "Lawful Neutral",
      "Neutral", "Chaotic Neutral", "Lawful Evil", "Neutral Evil",
      "Chaotic Evil"], false, "", 0⟩,
   ⟨"gender", "Gender", FieldType.text, detailStr details (fun d => d.gender),
     [], false, "Gender", 0⟩,
   ⟨"height", "Height", FieldType.text, detailStr details (fun d => d.height),
     [], false, "Height", 0⟩,
   ⟨"weight", "Weight", FieldType.text, detailStr details (fun d => d.weight),
     [], false, "180 lbs", 0⟩,
   ⟨"age", "Age", FieldType.text, detailStr details (fun d => d.age),
     [], false, "25", 0⟩,
   ⟨"faith", "Faith/Deity", FieldType.text, detailStr details (fun d => d.faithDeity),
     [], false, "Deity or faith", 0⟩,
   ⟨"hair", "Hair", FieldType.text, detailStr details (fun d => d.hair),
     [], false, "Hair color/style", 0⟩,
   ⟨"eyes", "Eyes", FieldType.text, detailStr details (fun d => d.eyes),
     [], false, "Eye color", 0⟩,
   ⟨"skin", "Skin", FieldType.text, detailStr details (fun d => d.skin),
     [], false, "Skin tone", 0⟩,
   ⟨"traits", "Personality", FieldType.text,
     detailStr details (fun d => d.personalityTraits), [], false,
     "Personality traits", 0⟩,
   ⟨"ideals", "Ideals", FieldType.text, detailStr details (fun d => d.ideals),
     [], false, "Ideals", 0⟩,
   ⟨"bonds", "Bonds", FieldType.text, detailStr details (fun d => d.bonds),
     [], false, "Bonds", 0⟩,
   ⟨"flaws", "Flaws", FieldType.text, detailStr details (fun d => d.flaws),
     [], false, "Flaws", 0⟩,
   ⟨"backstory", "Backstory", FieldType.text,
     detailStr details (fun d => d.backstory), [], false,
     "Character backstory", 0⟩,
   ⟨"allies", "Allies", FieldType.text,
     detailStr details (fun d => d.alliesOrganizations), [], false,
     "Allies and organizations", 0⟩]

/-- Go `openAttackModal` (construct, size, show). -/
def SheetScreen.openAttackModal (s : SheetScreen) : ModalModel :=
  (((NewModal "Add Attack" attackFields).setSize s.width s.height)).show

/-- Go `openActionModal`. -/
def SheetScreen.openActionModal (s : SheetScreen) : ModalModel :=
  (((NewModal "Add Action" actionFields).setSize s.width s.height)).show

/-- Go `openSpellModal`. -/
def SheetScreen.openSpellModal (s : SheetScreen) : ModalModel :=
  (((NewModal "Add Spell" (spellFields s.spellLevelFilter)).setSize
    s.width s.height)).show

/-- Go `openBackgroundModal`. -/
def SheetScreen.openBackgroundModal (s : SheetScreen) : ModalModel :=
  (((NewModal "Edit Background"
    (backgroundFields s.details s.char.alignment)).setSize s.width s.height)).show


/-- Go `updateTableFocus`: exactly the table belonging to the current tab
(and sub-focus) is focused. -/
def SheetScreen.updateTableFocus (s : SheetScreen) : SheetScreen :=
  { s with
    skillsTable := s.skillsTable.setFocused (s.tab == 0)
    attacksTable := s.attacksTable.setFocused (s.tab == 1 && !(s.combatFocus == 2))
    actionsTable := s.actionsTable.setFocused (s.tab == 1 && s.combatFocus == 2)
    spellsTable := s.spellsTable.setFocused (s.tab == 2)
    inventoryTable := s.inventoryTable.setFocused (s.tab == 3 && !(s.inventoryFocus == 2))
    magicItemsTable := s.magicItemsTable.setFocused (s.tab == 3 && s.inventoryFocus == 2)
    featuresTable := s.featuresTable.setFocused (s.tab == 4) }

/-- Go `refreshSpellsTable`: re-query the spell list for the current filter
(through the external collaborator oracle) and replace the table rows. -/
def SheetScreen.refreshSpellsTable (db : Db) (s : SheetScreen) : SheetScreen :=
  { s with spellsTable := s.spellsTable.setRows (db.spellRows s.spellLevelFilter) }

/-- Go `refreshFeaturesTable`. -/
def SheetScreen.refreshFeaturesTable (db : Db) (s : SheetScreen) : SheetScreen :=
  { s with featuresTable := s.featuresTable.setRows (db.featureRows s.featuresFilter) }

/-- The command list delivering a table emission, if any. -/
def tableOut : Option (TableMsg String) → List SheetCmd
  | some msg => [SheetCmd.emitTableMsg msg]
  | none => []

/-- The digit keys of the spell-level filter. -/
def digitKeys : List String :=
  ["0", "1", "2", "3", "4", "5", "6", "7", "8", "9"]

/-- Go `int(msg.String()[0] - '0')`. -/
def digitVal (k : String) : Int :=
  ((k.toList.headD '0').toNat : Int) - ('0'.toNat : Int)

/-- Go `updateView` (mode `view`): per-tab handlers first (each returning
early for the keys it claims), then the shared bottom switch with tab
cycling, mode entry keys, help and back navigation. -/
def SheetScreen.updateView (db : Db) (s : SheetScreen) (k : String) :
    SheetScreen × List SheetCmd :=
  if s.tab = 0 ∧ k ∈ tableNavKeys then
    let r := s.skillsTable.update k
    ({ s with skillsTable := r.1 }, tableOut r.2)
  else if s.tab = 1 ∧ k ∈ tableNavKeys then
    if s.combatFocus = 2 then
      let r := s.actionsTable.update k
      ({ s with actionsTable := r.1 }, tableOut r.2)
    else
      let r := s.attacksTable.update k
      ({ s with attacksTable := r.1 }, tableOut r.2)
  else if s.tab = 1 ∧ k = "1" then
    (SheetScreen.updateTableFocus { s with combatFocus := 1 }, [])
  else if s.tab = 1 ∧ k = "2" then
    (SheetScreen.updateTableFocus { s with combatFocus := 2 }, [])
  else if s.tab = 1 ∧ k = "a" then
    if s.combatFocus = 2 then
      ({ s with actionModal := some s.openActionModal, mode := SheetMode.addAction },
        [SheetCmd.blink])
    else
      ({ s with attackModal := some s.openAttackModal, mode := SheetMode.addAttack },
        [SheetCmd.blink])
  else if s.tab = 2 ∧ k ∈ tableNavKeys then
    let r := s.spellsTable.update k
    ({ s with spellsTable := r.1 }, tableOut r.2)
  else if s.tab = 2 ∧ k ∈ digitKeys then
    let level := digitVal k
    let s := if s.spellLevelFilter = level then { s with spellLevelFilter := -1 }
      else { s with spellLevelFilter := level }
    (SheetScreen.refreshSpellsTable db s, [])
  else if s.tab = 2 ∧ k = "a" then
    ({ s with spellModal := some s.openSpellModal, mode := SheetMode.addSpell },
      [SheetCmd.blink])
  else if s.tab = 2 ∧ (k = "d" ∨ k = "x") then
    match s.spellsTable.getSelectedRow with
    | some row => (s, [SheetCmd.deleteSpellCmd row.data])
    | none => (s, [])
  else if s.tab = 2 ∧ (k = "p" ∨ k = " ") then
    match s.spellsTable.getSelectedRow with
    | some row => (s, [SheetCmd.toggleSpellPreparedCmd row.data])
    | none => (s, [])
  else if s.tab = 3 ∧ k ∈ tableNavKeys then
    if s.inventoryFocus = 1 then
      let r := s.inventoryTable.update k
      ({ s with inventoryTable := r.1 }, tableOut r.2)
    else if s.inventoryFocus = 2 then
      let r := s.magicItemsTable.update k
      ({ s with magicItemsTable := r.1 }, tableOut r.2)
    else (s, [])
  else if s.tab = 3 ∧ k = "1" then
    (SheetScreen.updateTableFocus { s with inventoryFocus := 1 }, [])
  else if s.tab = 3 ∧ k = "2" then
    (SheetScreen.updateTableFocus { s with inventoryFocus := 2 }, [])
  else if s.tab = 4 ∧ k ∈ tableNavKeys then
    let r := s.featuresTable.update k
    ({ s with featuresTable := r.1 }, tableOut r.2)
  else if s.tab = 4 ∧ k = "1" then
    let s := if s.featuresFilter = "class" then { s with featuresFilter := "" }
      else { s with featuresFilter := "class" }
    (SheetScreen.refreshFeaturesTable db s, [])
  else if s.tab = 4 ∧ k = "2" then
    let s := if s.featuresFilter = "race" then { s with featuresFilter := "" }
      else { s with featuresFilter := "race" }
    (SheetScreen.refreshFeaturesTable db s, [])
  else if s.tab = 4 ∧ k = "3" then
    let s := if s.featuresFilter = "background" then { s with featuresFilter := "" }
      else { s with featuresFilter := "background" }
    (SheetScreen.refreshFeaturesTable db s, [])
  else if s.tab = 4 ∧ k = "4" then
    let s := if s.featuresFilter = "feat" then { s with featuresFilter := "" }
      else { s with featuresFilter := "feat" }
    (SheetScreen.refreshFeaturesTable db s, [])
  else if k = "tab" ∨ k = "right" ∨ k = "l" then
    (SheetScreen.updateTableFocus { s with tab := (s.tab + 1).tmod 7 }, [])
  else if k = "shift+tab" ∨ k = "left" ∨ k = "h" then
    (SheetScreen.updateTableFocus { s with tab := (s.tab + 6).tmod 7 }, [])
  else if k = "e" then
    if s.tab = 1 then
      ({ s with
          mode := SheetMode.editHP
          hpInput := toString s.char.currentHitPoints }, [SheetCmd.blink])
    else if s.tab = 5 then
      ({ s with
          backgroundModal := some s.openBackgroundModal
          mode := SheetMode.editBackground }, [SheetCmd.blink])
    else if s.tab = 6 then
      ({ s with mode := SheetMode.editNotes, notesInput := s.char.notes },
        [SheetCmd.blink])
    else (s, [])
  else if k = "-" then
    if s.tab = 1 then
      ({ s with mode := SheetMode.editDamage, damageInput := "" }, [SheetCmd.blink])
    else (s, [])
  else if k = "+" ∨ k = "=" then
    if s.tab = 1 then
      ({ s with mode := SheetMode.editHeal, healInput := "" }, [SheetCmd.blink])
    else (s, [])
  else if k = "f" then
    if s.tab = 6 then
      ({ s with
          mode := SheetMode.editFeatures
          featuresInput := s.char.featuresTraits }, [SheetCmd.blink])
    else (s, [])
  else if k = "r" then (s, [])
  else if k = "?" then ({ s with mode := SheetMode.help }, [])
  else if k = "esc" ∨ k = "q" then (s, [SheetCmd.navigateBack])
  else (s, [])

/-- Go `updateEditHP`: enter parses the input (unparseable input scans to
0), clamps into `[0, maxHitPoints]` and issues the single persistence
command; esc returns to view; any other key edits the input. -/
def SheetScreen.updateEditHP (s : SheetScreen) (k : String) :
    SheetScreen × List SheetCmd :=
  if k = "enter" then
    let hp := scanInt s.hpInput
    let hp := if hp < 0 then 0 else hp
    let hp := if hp > s.char.maxHitPoints then s.char.maxHitPoints else hp
    (s, [SheetCmd.updateHPCmd hp])
  else if k = "esc" then ({ s with mode := SheetMode.view }, [])
  else ({ s with hpInput := textinputUpdate s.hpInput k }, [])

/-- Go `updateEditDamage`: the parsed damage is floored at 0, subtracted
from the current HP, and the result floored at 0. -/
def SheetScreen.updateEditDamage (s : SheetScreen) (k : String) :
    SheetScreen × List SheetCmd :=
  if k = "enter" then
    let damage := scanInt s.damageInput
    let damage := if damage < 0 then 0 else damage
    let newHP := s.char.currentHitPoints - damage
    let newHP := if newHP < 0 then 0 else newHP
    (s, [SheetCmd.updateHPCmd newHP])
  else if k = "esc" then ({ s with mode := SheetMode.view }, [])
  else ({ s with damageInput := textinputUpdate s.damageInput k }, [])

/-- Go `updateEditHeal`: the parsed heal is floored at 0, added to the
current HP, and the result ceiled at `maxHitPoints`. -/
def SheetScreen.updateEditHeal (s : SheetScreen) (k : String) :
    SheetScreen × List SheetCmd :=
  if k = "enter" then
    let heal := scanInt s.healInput
    let heal := if heal < 0 then 0 else heal
    let newHP := s.char.currentHitPoints + heal
    let newHP := if newHP > s.char.maxHitPoints then s.char.maxHitPoints else newHP
    (s, [SheetCmd.updateHPCmd newHP])
  else if k = "esc" then ({ s with mode := SheetMode.view }, [])
  else ({ s with healInput := textinputUpdate s.healInput k }, [])

/-- Go `updateEditNotes`: ctrl+s issues the persistence command, esc returns
to view, everything else reaches the textarea (whose value a non-key message
does not change). -/
def SheetScreen.updateEditNotes (s : SheetScreen) (msg : SheetMsg) :
    SheetScreen × List SheetCmd :=
  match msg with
  | SheetMsg.key k =>
    if k = "ctrl+s" then (s, [SheetCmd.updateNotesCmd s.notesInput])
    else if k = "esc" then ({ s with mode := SheetMode.view }, [])
    else ({ s with notesInput := textinputUpdate s.notesInput k }, [])
  | _ => (s, [])

/-- Go `updateEditFeatures`. -/
def SheetScreen.updateEditFeatures (s : SheetScreen) (msg : SheetMsg) :
    SheetScreen × List SheetCmd :=
  match msg with
  | SheetMsg.key k =>
    if k = "ctrl+s" then (s, [SheetCmd.updateFeaturesCmd s.featuresInput])
    else if k = "esc" then ({ s with mode := SheetMode.view }, [])
    else ({ s with featuresInput := textinputUpdate s.featuresInput k }, [])
  | _ => (s, [])

/-- Whether the external persistence call inside a command closure succeeds
or fails. -/
inductive CmdResult where
  | ok
  | failed
deriving DecidableEq

/-- Go `updateHP`: the body of the single persistence command issued by the
numeric edit modes, parameterized by the external call's outcome.  On
failure it returns an error status message WITHOUT touching the mode; on
success the database returns the row with the new current HP (temporary HP
passed through unchanged), the screen stores it, sets the mode back to
view, and a `CharacterUpdatedMsg` is delivered. -/
def SheetScreen.updateHP (s : SheetScreen) (hp : Int) :
    CmdResult → SheetScreen × SheetMsg
  | CmdResult.failed => (s, SheetMsg.status "Failed to update HP" true)
  | CmdResult.ok =>
    let updated := { s.char with currentHitPoints := hp }
    ({ s with char := updated, mode := SheetMode.view },
      SheetMsg.characterUpdated updated)

/-- Go `updateNotes` (the command body). -/
def SheetScreen.updateNotes (s : SheetScreen) (notes : String) :
    CmdResult → SheetScreen × SheetMsg
  | CmdResult.failed => (s, SheetMsg.status "Failed to save notes" true)
  | CmdResult.ok =>
    let updated := { s.char with notes := notes }
    ({ s with char := updated, mode := SheetMode.view },
      SheetMsg.characterUpdated updated)

/-- Go `updateFeatures` (the command body). -/
def SheetScreen.updateFeatures (s : SheetScreen) (features : String) :
    CmdResult → SheetScreen × SheetMsg
  | CmdResult.failed => (s, SheetMsg.status "Failed to save features" true)
  | CmdResult.ok =>
    let updated := { s.char with featuresTraits := features }
    ({ s with char := updated, mode := SheetMode.view },
      SheetMsg.characterUpdated updated)

/-- A modal update on an arbitrary message: Go `ModalModel.Update` switches
only on key messages; anything else reaches the passthrough. -/
def modalUpdateMsg (m : ModalModel) (msg : SheetMsg) :
    Option (ModalModel × List ModalCmd) :=
  match msg with
  | SheetMsg.key k => m.update k
  | _ => m.updateNonKey

/-- A modal command surfaced as a sheet command. -/
def modalCmdToSheet : ModalCmd → SheetCmd
  | ModalCmd.emit (ModalMsg.save v) => SheetCmd.emitModalSave v
  | ModalCmd.emit ModalMsg.cancel => SheetCmd.emitModalCancel
  | ModalCmd.blink => SheetCmd.blink

/-- The mode-routing switch at the bottom of Go `SheetScreen.Update`: the
current mode owns the message.  A key in `view` goes to `updateView`; the
numeric edit modes take keys only; notes/features and the modal modes
receive every message; any key closes help via its handled key set. -/
def SheetScreen.modeDispatch (db : Db) (s : SheetScreen) (msg : SheetMsg) :
    Option (SheetScreen × List SheetCmd) :=
  match s.mode with
  | SheetMode.view =>
    match msg with
    | SheetMsg.key k => some (s.updateView db k)
    | _ => some (s, [])
  | SheetMode.editHP =>
    match msg with
    | SheetMsg.key k => some (s.updateEditHP k)
    | _ => some (s, [])
  | SheetMode.editDamage =>
    match msg with
    | SheetMsg.key k => some (s.updateEditDamage k)
    | _ => some (s, [])
  | SheetMode.editHeal =>
    match msg with
    | SheetMsg.key k => some (s.updateEditHeal k)
    | _ => some (s, [])
  | SheetMode.editNotes => some (s.updateEditNotes msg)
  | SheetMode.editFeatures => some (s.updateEditFeatures msg)
  | SheetMode.editBackground =>
    match s.backgroundModal with
    | some m =>
      match modalUpdateMsg m msg with
      | none => none
      | some r => some ({ s with backgroundModal := some r.1 },
          r.2.map modalCmdToSheet)
    | none => some (s, [])
  | SheetMode.addAttack =>
    match s.attackModal with
    | some m =>
      match modalUpdateMsg m msg with
      | none => none
      | some r => some ({ s with attackModal := some r.1 },
          r.2.map modalCmdToSheet)
    | none => some (s, [])
  | SheetMode.addAction =>
    match s.actionModal with
    | some m =>
      match modalUpdateMsg m msg with
      | none => none
      | some r => some ({ s with actionModal := some r.1 },
          r.2.map modalCmdToSheet)
    | none => some (s, [])
  | SheetMode.addSpell =>
    match s.spellModal with
    | some m =>
      match modalUpdateMsg m msg with
      | none => none
      | some r => some ({ s with spellModal := some r.1 },
          r.2.map modalCmdToSheet)
    | none => some (s, [])
  | SheetMode.help =>
    match msg with
    | SheetMsg.key k =>
      if k = "?" ∨ k = "esc" ∨ k = "q" ∨ k = "enter" ∨ k = " " then
        some ({ s with mode := SheetMode.view }, [])
      else some (s, [])
    | _ => some (s, [])

/-- Go `SheetScreen.Update`: the leading type switch (window size stored and
passed on; a status message stored together with the scheduling of a single
3-second clear tick; a clear message unconditionally emptying the status; a
modal save/cancel routed by mode), then the mode dispatch. -/
def SheetScreen.update (db : Db) (s : SheetScreen) (msg : SheetMsg) :
    Option (SheetScreen × List SheetCmd) :=
  match msg with
  | SheetMsg.windowSize w h =>
    SheetScreen.modeDispatch db { s with width := w, height := h } msg
  | SheetMsg.status message isError =>
    some ({ s with statusMsg := message, statusIsErr := isError },
      [SheetCmd.tick 3])
  | SheetMsg.clearStatus =>
    some ({ s with statusMsg := "", statusIsErr := false }, [])
  | SheetMsg.modalSave values =>
    if s.mode = SheetMode.editBackground then
      some ({ s with mode := SheetMode.view }, [SheetCmd.saveBackgroundCmd values])
    else if s.mode = SheetMode.addAttack then
      some ({ s with mode := SheetMode.view }, [SheetCmd.saveAttackCmd values])
    else if s.mode = SheetMode.addAction then
      some ({ s with mode := SheetMode.view }, [SheetCmd.saveActionCmd values])
    else if s.mode = SheetMode.addSpell then
      some ({ s with mode := SheetMode.view }, [SheetCmd.saveSpellCmd values])
    else SheetScreen.modeDispatch db s msg
  | SheetMsg.modalCancel =>
    let s := if s.mode = SheetMode.editBackground then
      { s with mode := SheetMode.view, backgroundModal := none } else s
    let s := if s.mode = SheetMode.addAttack then
      { s with mode := SheetMode.view, attackModal := none } else s
    let s := if s.mode = SheetMode.addAction then
      { s with mode := SheetMode.view, actionModal := none } else s
    let s := if s.mode = SheetMode.addSpell then
      { s with mode := SheetMode.view, spellModal := none } else s
    some (s, [])
  | _ => SheetScreen.modeDispatch db s msg

/-- The single timer-like effect: a `tick` command scheduled at `now`
delivers a `ClearStatusMsg` at `now + seconds`; no other command schedules a
delayed message. -/
def cmdSchedule (now : Nat) : SheetCmd → Option (Nat × SheetMsg)
  | SheetCmd.tick seconds => some (now + seconds, SheetMsg.clearStatus)
  | _ => none

/-- The sheet screen together with its pending delayed deliveries. -/
structure LoopState where
  sheet : SheetScreen
  pending : List (Nat × SheetMsg)
deriving DecidableEq

/-- Delivering one message at time `now`: the screen processes it and every
returned tick is appended to the pending deliveries.  Nothing is ever
removed or canceled by a delivery. -/
def LoopState.deliver (db : Db) (a : LoopState) (now : Nat) (msg : SheetMsg) :
    Option LoopState :=
  match a.sheet.update db msg with
  | none => none
  | some r =>
    some { sheet := r.1, pending := a.pending ++ r.2.filterMap (cmdSchedule now) }


/-- A concrete character for concrete-state theorems: 10/20 HP. -/
def char0 : Character :=
  { currentHitPoints := 10, maxHitPoints := 20, temporaryHitPoints := 0,
    notes := "", featuresTraits := "", alignment := none }

/-- A concrete sheet state in view mode on the core tab. -/
def sheet0 : SheetScreen :=
  { char := char0, mode := SheetMode.view, tab := 0, width := 80, height := 24,
    hpInput := "", damageInput := "", healInput := "", notesInput := "",
    featuresInput := "", backgroundModal := none, attackModal := none,
    actionModal := none, spellModal := none,
    skillsTable := NewTable String, attacksTable := NewTable String,
    actionsTable := NewTable String, inventoryTable := NewTable String,
    magicItemsTable := NewTable String, spellsTable := NewTable String,
    featuresTable := NewTable String, combatFocus := 1, inventoryFocus := 1,
    spellLevelFilter := 0, featuresFilter := "", details := none,
    statusMsg := "", statusIsErr := false }

/-- A trivial persistence oracle (all queries return no rows). -/
def db0 : Db := { spellRows := fun _ => [], featureRows := fun _ => [] }

/-- Rewriting `if (if a < 0 then 0 else a) > M then M else ...` into
`min (max a 0) M`. -/
theorem clamp_set_eq (a M : Int) :
    (if (if a < 0 then 0 else a) > M then M else if a < 0 then 0 else a) =
      min (max a 0) M := by
  split_ifs <;> omega

/-- C2 (amended): on enter, each numeric edit parses its input with Sscanf
semantics (no digits scans to 0) and issues exactly one persistence command;
the PARSED AMOUNT IS ITSELF FLOORED AT 0 FIRST (a negative parsed damage or
heal amount is treated as 0 — the original claim's formulas differ there,
see the counterexample); then set-HP clamps into `[0, maxHP]`, damage
subtracts and floors the result at 0, heal adds and ceils the result at
maxHP.  A character at 5/20 HP taking 100 damage ends at exactly 0. -/
theorem C2_numeric_edit_clamps :
    (∀ s : SheetScreen, s.updateEditHP "enter" =
      (s, [SheetCmd.updateHPCmd
        (min (max (scanInt s.hpInput) 0) s.char.maxHitPoints)])) ∧
    (∀ s : SheetScreen, s.updateEditDamage "enter" =
      (s, [SheetCmd.updateHPCmd
        (max (s.char.currentHitPoints - max (scanInt s.damageInput) 0) 0)])) ∧
    (∀ s : SheetScreen, s.updateEditHeal "enter" =
      (s, [SheetCmd.updateHPCmd
        (min (s.char.currentHitPoints + max (scanInt s.healInput) 0)
          s.char.maxHitPoints)])) ∧
    scanInt "" = 0 ∧ scanInt "abc" = 0 ∧ scanInt "17" = 17 ∧
    SheetScreen.update db0
      { sheet0 with
          mode := SheetMode.editDamage
          char := { char0 with currentHitPoints := 5 }
          damageInput := "100" } (SheetMsg.key "enter") =
      some ({ sheet0 with
          mode := SheetMode.editDamage
          char := { char0 with currentHitPoints := 5 }
          damageInput := "100" }, [SheetCmd.updateHPCmd 0]) := by
  refine ⟨?_, ?_, ?_, by decide, by decide, by decide, by decide⟩
  · intro s
    unfold SheetScreen.updateEditHP
    rw [if_pos rfl]
    dsimp only
    refine congrArg (fun x => (s, [SheetCmd.updateHPCmd x])) ?_
    split_ifs <;> omega
  · intro s
    unfold SheetScreen.updateEditDamage
    rw [if_pos rfl]
    dsimp only
    refine congrArg (fun x => (s, [SheetCmd.updateHPCmd x])) ?_
    split_ifs <;> omega
  · intro s
    unfold SheetScreen.updateEditHeal
    rw [if_pos rfl]
    dsimp only
    refine congrArg (fun x => (s, [SheetCmd.updateHPCmd x])) ?_
    split_ifs <;> omega

/-- C2, counterexample to the claim as stated: the input "-5" parses to -5;
in edit-damage mode the code first floors the damage amount at 0, so the
issued command carries the unchanged current HP 10, while the claim's
formula `currentHP - damage` floored at 0 gives `max (10 - (-5)) 0 = 15`. -/
theorem C2_counterexample :
    scanInt "-5" = -5 ∧
    SheetScreen.update db0
      { sheet0 with mode := SheetMode.editDamage, damageInput := "-5" }
      (SheetMsg.key "enter") =
      some ({ sheet0 with mode := SheetMode.editDamage, damageInput := "-5" },
        [SheetCmd.updateHPCmd 10]) ∧
    ¬ ((10 : Int) = max (char0.currentHitPoints - scanInt "-5") 0) := by
  exact ⟨by decide, by decide, by decide⟩


/-- C3 (amended): each numeric edit's enter press issues exactly one
persistence command, and the enter press itself leaves the whole screen
state (in particular the mode) unchanged — the mode can only change when
the command completes.  On success, the command's completion stores the
updated character, sets the mode back to view, and delivers a
character-updated message.  On failure the command delivers an error-flagged
status message and LEAVES THE SCREEN UNCHANGED: the mode remains the edit
mode (and processing the status message never changes the mode either), so
— contrary to the original claim — the mode does not return to view in the
failure case. -/
theorem C3_hp_command_lifecycle :
    (∀ (db : Db) (s : SheetScreen),
      (s.mode = SheetMode.editHP ∨ s.mode = SheetMode.editDamage ∨
        s.mode = SheetMode.editHeal) →
      ∃ hp, s.update db (SheetMsg.key "enter") =
        some (s, [SheetCmd.updateHPCmd hp])) ∧
    (∀ (s : SheetScreen) (hp : Int),
      (s.updateHP hp CmdResult.ok).1.mode = SheetMode.view ∧
      (s.updateHP hp CmdResult.ok).1.char.currentHitPoints = hp ∧
      (s.updateHP hp CmdResult.ok).2 =
        SheetMsg.characterUpdated (s.updateHP hp CmdResult.ok).1.char) ∧
    (∀ (s : SheetScreen) (hp : Int),
      (s.updateHP hp CmdResult.failed).1 = s ∧
      (s.updateHP hp CmdResult.failed).2 =
        SheetMsg.status "Failed to update HP" true) ∧
    (∀ (db : Db) (s : SheetScreen) (message : String) (isError : Bool),
      s.update db (SheetMsg.status message isError) =
        some ({ s with statusMsg := message, statusIsErr := isError },
          [SheetCmd.tick 3])) := by
  refine ⟨?_, ?_, ?_, ?_⟩
  · intro db s hmode
    rcases hmode with hm | hm | hm
    · refine ⟨min (max (scanInt s.hpInput) 0) s.char.maxHitPoints, ?_⟩
      unfold SheetScreen.update SheetScreen.modeDispatch
      rw [hm]
      dsimp only
      unfold SheetScreen.updateEditHP
      rw [if_pos rfl]
      dsimp only
      refine congrArg (fun x => some (s, [SheetCmd.updateHPCmd x])) ?_
      split_ifs <;> omega
    · refine ⟨max (s.char.currentHitPoints - max (scanInt s.damageInput) 0) 0, ?_⟩
      unfold SheetScreen.update SheetScreen.modeDispatch
      rw [hm]
      dsimp only
      unfold SheetScreen.updateEditDamage
      rw [if_pos rfl]
      dsimp only
      refine congrArg (fun x => some (s, [SheetCmd.updateHPCmd x])) ?_
      split_ifs <;> omega
    · refine ⟨min (s.char.currentHitPoints + max (scanInt s.healInput) 0)
        s.char.maxHitPoints, ?_⟩
      unfold SheetScreen.update SheetScreen.modeDispatch
      rw [hm]
      dsimp only
      unfold SheetScreen.updateEditHeal
      rw [if_pos rfl]
      dsimp only
      refine congrArg (fun x => some (s, [SheetCmd.updateHPCmd x])) ?_
      split_ifs <;> omega
  · intro s hp
    exact ⟨rfl, rfl, rfl⟩
  · intro s hp
    exact ⟨rfl, rfl⟩
  · intro db s message isError
    rfl

/-- Witness for C3 at a concrete edit-HP state with input "7". -/
theorem C3_hp_command_lifecycle_witness :
    (({ sheet0 with mode := SheetMode.editHP, hpInput := "7" } : SheetScreen).mode =
        SheetMode.editHP ∨
      ({ sheet0 with mode := SheetMode.editHP, hpInput := "7" } : SheetScreen).mode =
        SheetMode.editDamage ∨
      ({ sheet0 with mode := SheetMode.editHP, hpInput := "7" } : SheetScreen).mode =
        SheetMode.editHeal) ∧
    (∃ hp, SheetScreen.update db0
        { sheet0 with mode := SheetMode.editHP, hpInput := "7" }
        (SheetMsg.key "enter") =
      some ({ sheet0 with mode := SheetMode.editHP, hpInput := "7" },
        [SheetCmd.updateHPCmd hp])) :=
  ⟨Or.inl rfl,
    C3_hp_command_lifecycle.1 db0
      { sheet0 with mode := SheetMode.editHP, hpInput := "7" } (Or.inl rfl)⟩

/-- C3, counterexample to "on failure the mode still returns to view": from
edit-HP mode, enter issues the single update command; when the persistence
call fails, the command delivers only an error status message and the mode
stays `editHP`; delivering that status message stores it and schedules the
clear tick but leaves the mode at `editHP`, which is not `view`. -/
theorem C3_counterexample :
    SheetScreen.update db0 { sheet0 with mode := SheetMode.editHP, hpInput := "7" }
      (SheetMsg.key "enter") =
      some ({ sheet0 with mode := SheetMode.editHP, hpInput := "7" },
        [SheetCmd.updateHPCmd 7]) ∧
    SheetScreen.updateHP { sheet0 with mode := SheetMode.editHP, hpInput := "7" }
      7 CmdResult.failed =
      ({ sheet0 with mode := SheetMode.editHP, hpInput := "7" },
        SheetMsg.status "Failed to update HP" true) ∧
    SheetScreen.update db0 { sheet0 with mode := SheetMode.editHP, hpInput := "7" }
      (SheetMsg.status "Failed to update HP" true) =
      some ({ sheet0 with
          mode := SheetMode.editHP
          hpInput := "7"
          statusMsg := "Failed to update HP"
          statusIsErr := true }, [SheetCmd.tick 3]) ∧
    ({ sheet0 with
        mode := SheetMode.editHP
        hpInput := "7"
        statusMsg := "Failed to update HP"
        statusIsErr := true } : SheetScreen).mode ≠ SheetMode.view := by
  exact ⟨by decide, by decide, by decide, by decide⟩


theorem updateEditHP_tab (s : SheetScreen) (k : String) :
    (s.updateEditHP k).1.tab = s.tab := by
  unfold SheetScreen.updateEditHP
  split_ifs <;> rfl

theorem updateEditDamage_tab (s : SheetScreen) (k : String) :
    (s.updateEditDamage k).1.tab = s.tab := by
  unfold SheetScreen.updateEditDamage
  split_ifs <;> rfl

theorem updateEditHeal_tab (s : SheetScreen) (k : String) :
    (s.updateEditHeal k).1.tab = s.tab := by
  unfold SheetScreen.updateEditHeal
  split_ifs <;> rfl

theorem updateEditNotes_tab (s : SheetScreen) (msg : SheetMsg) :
    (s.updateEditNotes msg).1.tab = s.tab := by
  unfold SheetScreen.updateEditNotes
  cases msg <;> try rfl
  dsimp only
  split_ifs <;> rfl

theorem updateEditFeatures_tab (s : SheetScreen) (msg : SheetMsg) :
    (s.updateEditFeatures msg).1.tab = s.tab := by
  unfold SheetScreen.updateEditFeatures
  cases msg <;> try rfl
  dsimp only
  split_ifs <;> rfl

/-- C4: while any mode other than `view` is active, processing an arbitrary
key event never changes the active tab index — the tab-cycling keys are not
delivered to the tab dimension until the mode exits. -/
theorem C4_mode_owns_input :
    ∀ (db : Db) (s : SheetScreen) (k : String) (s' : SheetScreen)
      (cmds : List SheetCmd),
      s.mode ≠ SheetMode.view →
      s.update db (SheetMsg.key k) = some (s', cmds) →
      s'.tab = s.tab := by
  intro db s k s' cmds hmode hup
  unfold SheetScreen.update SheetScreen.modeDispatch at hup
  cases hm : s.mode
  case view => exact absurd hm hmode
  case editHP =>
    rw [hm] at hup
    dsimp only at hup
    have htab : (s.updateEditHP k).1.tab = s'.tab :=
      congrArg (fun p => p.1.tab) (Option.some.inj hup)
    rw [← htab, updateEditHP_tab]
  case editDamage =>
    rw [hm] at hup
    dsimp only at hup
    have htab : (s.updateEditDamage k).1.tab = s'.tab :=
      congrArg (fun p => p.1.tab) (Option.some.inj hup)
    rw [← htab, updateEditDamage_tab]
  case editHeal =>
    rw [hm] at hup
    dsimp only at hup
    have htab : (s.updateEditHeal k).1.tab = s'.tab :=
      congrArg (fun p => p.1.tab) (Option.some.inj hup)
    rw [← htab, updateEditHeal_tab]
  case editNotes =>
    rw [hm] at hup
    dsimp only at hup
    have htab : (s.updateEditNotes (SheetMsg.key k)).1.tab = s'.tab :=
      congrArg (fun p => p.1.tab) (Option.some.inj hup)
    rw [← htab, updateEditNotes_tab]
  case editFeatures =>
    rw [hm] at hup
    dsimp only at hup
    have htab : (s.updateEditFeatures (SheetMsg.key k)).1.tab = s'.tab :=
      congrArg (fun p => p.1.tab) (Option.some.inj hup)
    rw [← htab, updateEditFeatures_tab]
  case editBackground =>
    rw [hm] at hup
    dsimp only at hup
    cases hbm : s.backgroundModal with
    | none =>
      rw [hbm] at hup
      dsimp only at hup
      exact (congrArg (fun p => p.1.tab) (Option.some.inj hup)).symm
    | some m =>
      rw [hbm] at hup
      dsimp only at hup
      cases hmu : modalUpdateMsg m (SheetMsg.key k) with
      | none => rw [hmu] at hup; exact absurd hup (by simp)
      | some r =>
        rw [hmu] at hup
        dsimp only at hup
        exact (congrArg (fun p => p.1.tab) (Option.some.inj hup)).symm
  case addAttack =>
    rw [hm] at hup
    dsimp only at hup
    cases hbm : s.attackModal with
    | none =>
      rw [hbm] at hup
      dsimp only at hup
      exact (congrArg (fun p => p.1.tab) (Option.some.inj hup)).symm
    | some m =>
      rw [hbm] at hup
      dsimp only at hup
      cases hmu : modalUpdateMsg m (SheetMsg.key k) with
      | none => rw [hmu] at hup; exact absurd hup (by simp)
      | some r =>
        rw [hmu] at hup
        dsimp only at hup
        exact (congrArg (fun p => p.1.tab) (Option.some.inj hup)).symm
  case addAction =>
    rw [hm] at hup
    dsimp only at hup
    cases hbm : s.actionModal with
    | none =>
      rw [hbm] at hup
      dsimp only at hup
      exact (congrArg (fun p => p.1.tab) (Option.some.inj hup)).symm
    | some m =>
      rw [hbm] at hup
      dsimp only at hup
      cases hmu : modalUpdateMsg m (SheetMsg.key k) with
      | none => rw [hmu] at hup; exact absurd hup (by simp)
      | some r =>
        rw [hmu] at hup
        dsimp only at hup
        exact (congrArg (fun p => p.1.tab) (Option.some.inj hup)).symm
  case addSpell =>
    rw [hm] at hup
    dsimp only at hup
    cases hbm : s.spellModal with
    | none =>
      rw [hbm] at hup
      dsimp only at hup
      exact (congrArg (fun p => p.1.tab) (Option.some.inj hup)).symm
    | some m =>
      rw [hbm] at hup
      dsimp only at hup
      cases hmu : modalUpdateMsg m (SheetMsg.key k) with
      | none => rw [hmu] at hup; exact absurd hup (by simp)
      | some r =>
        rw [hmu] at hup
        dsimp only at hup
        exact (congrArg (fun p => p.1.tab) (Option.some.inj hup)).symm
  case help =>
    rw [hm] at hup
    dsimp only at hup
    split_ifs at hup <;>
      exact (congrArg (fun p => p.1.tab) (Option.some.inj hup)).symm

/-- Witness for C4: a key in help mode leaves the tab unchanged. -/
theorem C4_mode_owns_input_witness :
    ({ sheet0 with mode := SheetMode.help } : SheetScreen).mode ≠ SheetMode.view ∧
    ({ sheet0 with mode := SheetMode.help } : SheetScreen).tab =
      ({ sheet0 with mode := SheetMode.help } : SheetScreen).tab :=
  ⟨by decide,
    C4_mode_owns_input db0 { sheet0 with mode := SheetMode.help } "x"
      { sheet0 with mode := SheetMode.help } [] (by decide) (by decide)⟩


/-- In view mode, a key message routes to `updateView`. -/
theorem update_view_route (db : Db) (s : SheetScreen) (k : String)
    (hm : s.mode = SheetMode.view) :
    s.update db (SheetMsg.key k) = some (s.updateView db k) := by
  unfold SheetScreen.update SheetScreen.modeDispatch
  rw [hm]

/-- The tab key reaches the bottom switch of `updateView` and advances the
tab modulo 7 (Go truncating `%`). -/
theorem updateView_tab_key (db : Db) (s : SheetScreen) :
    (s.updateView db "tab").1 =
      SheetScreen.updateTableFocus { s with tab := (s.tab + 1).tmod 7 } := by
  unfold SheetScreen.updateView
  simp [tableNavKeys, digitKeys]

/-- The shift+tab key reaches the bottom switch of `updateView` and moves
the tab back modulo 7 (adding 6). -/
theorem updateView_shift_tab_key (db : Db) (s : SheetScreen) :
    (s.updateView db "shift+tab").1 =
      SheetScreen.updateTableFocus { s with tab := (s.tab + 6).tmod 7 } := by
  unfold SheetScreen.updateView
  simp [tableNavKeys, digitKeys]

/-- C7: in view mode the next-tab key maps tab `t` (0..6) to `(t+1) % 7` and
the previous-tab key maps it to `(t+6) % 7`; in particular tab 6 cycles
forward to 0 and tab 0 cycles backward to 6. -/
theorem C7_tab_cycling :
    (∀ (db : Db) (s : SheetScreen),
      s.mode = SheetMode.view → 0 ≤ s.tab → s.tab < 7 →
      (∃ s' cmds, s.update db (SheetMsg.key "tab") = some (s', cmds) ∧
        s'.tab = (s.tab + 1) % 7) ∧
      (∃ s' cmds, s.update db (SheetMsg.key "shift+tab") = some (s', cmds) ∧
        s'.tab = (s.tab + 6) % 7)) ∧
    (∃ s' cmds,
      SheetScreen.update db0 { sheet0 with tab := 6 } (SheetMsg.key "tab") =
        some (s', cmds) ∧ s'.tab = 0) ∧
    (∃ s' cmds,
      SheetScreen.update db0 sheet0 (SheetMsg.key "shift+tab") =
        some (s', cmds) ∧ s'.tab = 6) := by
  refine ⟨?_, ?_, ?_⟩
  · intro db s hm h0 h7
    constructor
    · refine ⟨(s.updateView db "tab").1, (s.updateView db "tab").2,
        by rw [update_view_route db s "tab" hm], ?_⟩
      rw [updateView_tab_key]
      show (s.tab + 1).tmod 7 = (s.tab + 1) % 7
      exact @Int.tmod_eq_emod (s.tab + 1) 7 (by omega) (by omega)
    · refine ⟨(s.updateView db "shift+tab").1, (s.updateView db "shift+tab").2,
        by rw [update_view_route db s "shift+tab" hm], ?_⟩
      rw [updateView_shift_tab_key]
      show (s.tab + 6).tmod 7 = (s.tab + 6) % 7
      exact @Int.tmod_eq_emod (s.tab + 6) 7 (by omega) (by omega)
  · exact ⟨_, _, rfl, by decide⟩
  · exact ⟨_, _, rfl, by decide⟩

/-- Witness for C7 at the concrete initial sheet (tab 0, view mode). -/
theorem C7_tab_cycling_witness :
    (sheet0.mode = SheetMode.view ∧ 0 ≤ sheet0.tab ∧ sheet0.tab < 7) ∧
    ((∃ s' cmds, SheetScreen.update db0 sheet0 (SheetMsg.key "tab") =
        some (s', cmds) ∧ s'.tab = (sheet0.tab + 1) % 7) ∧
     (∃ s' cmds, SheetScreen.update db0 sheet0 (SheetMsg.key "shift+tab") =
        some (s', cmds) ∧ s'.tab = (sheet0.tab + 6) % 7)) :=
  ⟨⟨by decide, by decide, by decide⟩,
    C7_tab_cycling.1 db0 sheet0 (by decide) (by decide) (by decide)⟩


/-- A digit key is never a table navigation key. -/
theorem digit_not_nav (k : String) (hk : k ∈ digitKeys) : k ∉ tableNavKeys := by
  simp only [digitKeys, List.mem_cons, List.not_mem_nil, or_false] at hk
  rcases hk with h | h | h | h | h | h | h | h | h | h <;> subst h <;> decide

/-- On the spells tab in view mode a digit key toggles the spell-level
filter (same level toggles back to -1, i.e. "all"), re-queries the spell
rows, and leaves the mode and tab unchanged. -/
theorem spellFilter_step (db : Db) (s : SheetScreen) (k : String)
    (hm : s.mode = SheetMode.view) (ht : s.tab = 2) (hk : k ∈ digitKeys) :
    ∃ s', s.update db (SheetMsg.key k) = some (s', []) ∧
      s'.mode = SheetMode.view ∧ s'.tab = 2 ∧
      s'.spellLevelFilter =
        (if s.spellLevelFilter = digitVal k then -1 else digitVal k) := by
  have hknav : k ∉ tableNavKeys := digit_not_nav k hk
  rw [update_view_route db s k hm]
  unfold SheetScreen.updateView
  rw [ht]
  simp only [hknav, hk]
  norm_num
  refine ⟨?_, ?_, ?_⟩ <;>
    by_cases hf : s.spellLevelFilter = digitVal k <;>
      simp [SheetScreen.refreshSpellsTable, hf, hm]


/-- C8 (amended): on the spells tab in view mode, pressing digit `k` when
the filter already equals `k` returns the filter to "all" (-1), and pressing
`k` when the filter differs sets it to level `k`; hence pressing the same
digit twice restores "all" WHENEVER THE FILTER DID NOT ALREADY EQUAL `k` —
if it did, the two presses first clear the filter and then re-apply level
`k` (see the counterexample against the unrestricted double-press claim). -/
theorem C8_spell_filter_toggle :
    (∀ (db : Db) (s : SheetScreen) (k : String),
      s.mode = SheetMode.view → s.tab = 2 → k ∈ digitKeys →
      s.spellLevelFilter = digitVal k →
      ∃ s' cmds, s.update db (SheetMsg.key k) = some (s', cmds) ∧
        s'.spellLevelFilter = -1) ∧
    (∀ (db : Db) (s : SheetScreen) (k : String),
      s.mode = SheetMode.view → s.tab = 2 → k ∈ digitKeys →
      s.spellLevelFilter ≠ digitVal k →
      ∃ s' cmds, s.update db (SheetMsg.key k) = some (s', cmds) ∧
        s'.spellLevelFilter = digitVal k) ∧
    (∀ (db : Db) (s : SheetScreen) (k : String),
      s.mode = SheetMode.view → s.tab = 2 → k ∈ digitKeys →
      s.spellLevelFilter ≠ digitVal k →
      ∃ s1 c1 s2 c2, s.update db (SheetMsg.key k) = some (s1, c1) ∧
        s1.update db (SheetMsg.key k) = some (s2, c2) ∧
        s2.spellLevelFilter = -1) := by
  refine ⟨?_, ?_, ?_⟩
  · intro db s k hm ht hk hf
    obtain ⟨s', h1, _, _, h4⟩ := spellFilter_step db s k hm ht hk
    exact ⟨s', [], h1, by rw [h4, if_pos hf]⟩
  · intro db s k hm ht hk hf
    obtain ⟨s', h1, _, _, h4⟩ := spellFilter_step db s k hm ht hk
    exact ⟨s', [], h1, by rw [h4, if_neg hf]⟩
  · intro db s k hm ht hk hf
    obtain ⟨s1, h1, hm1, ht1, hf1⟩ := spellFilter_step db s k hm ht hk
    rw [if_neg hf] at hf1
    obtain ⟨s2, h2, hm2, ht2, hf2⟩ := spellFilter_step db s1 k hm1 ht1 hk
    rw [if_pos hf1] at hf2
    exact ⟨s1, [], s2, [], h1, h2, hf2⟩

/-- Witness for C8 from the "all different" state: filter 0, pressing "3"
twice restores "all". -/
theorem C8_spell_filter_toggle_witness :
    (({ sheet0 with tab := 2 } : SheetScreen).mode = SheetMode.view ∧
     ({ sheet0 with tab := 2 } : SheetScreen).tab = 2 ∧
     "3" ∈ digitKeys ∧
     ({ sheet0 with tab := 2 } : SheetScreen).spellLevelFilter ≠ digitVal "3") ∧
    (∃ s1 c1 s2 c2,
      SheetScreen.update db0 { sheet0 with tab := 2 } (SheetMsg.key "3") =
        some (s1, c1) ∧
      SheetScreen.update db0 s1 (SheetMsg.key "3") = some (s2, c2) ∧
      s2.spellLevelFilter = -1) :=
  ⟨⟨by decide, by decide, by decide, by decide⟩,
    C8_spell_filter_toggle.2.2 db0 { sheet0 with tab := 2 } "3"
      (by decide) (by decide) (by decide) (by decide)⟩

/-- C8, counterexample to "toggling the same filter key twice from any state
restores the all filter": starting with the filter already at level 3,
pressing "3" twice first clears the filter to "all" and then re-applies
level 3, so the final filter is 3, not "all". -/
theorem C8_counterexample :
    ∃ s1 c1 s2 c2,
      SheetScreen.update db0 { sheet0 with tab := 2, spellLevelFilter := 3 }
        (SheetMsg.key "3") = some (s1, c1) ∧
      SheetScreen.update db0 s1 (SheetMsg.key "3") = some (s2, c2) ∧
      s2.spellLevelFilter = 3 ∧ ¬ (s2.spellLevelFilter = -1) := by
  refine ⟨_, _, _, _, rfl, rfl, by decide, by decide⟩


/-- C9: showing a status message stores it and schedules exactly one clear
event at the fixed 3-unit delay; delivering a status message appends that
single timer to the pending deliveries without touching any already
scheduled clear; a clear event unconditionally empties the status message.
Concretely, showing "A" at time 0 and "B" at time 1 leaves clears pending at
3 and 4, and when the earlier clear fires at time 3 it erases "B" — the
newer message — while B's own clear is still pending. -/
theorem C9_status_clear_lifecycle :
    (∀ (db : Db) (s : SheetScreen) (message : String) (isError : Bool),
      s.update db (SheetMsg.status message isError) =
        some ({ s with statusMsg := message, statusIsErr := isError },
          [SheetCmd.tick 3])) ∧
    (∀ (db : Db) (s : SheetScreen),
      s.update db SheetMsg.clearStatus =
        some ({ s with statusMsg := "", statusIsErr := false }, [])) ∧
    (∀ (db : Db) (a : LoopState) (now : Nat) (message : String) (isError : Bool),
      LoopState.deliver db a now (SheetMsg.status message isError) =
        some { sheet := { a.sheet with statusMsg := message, statusIsErr := isError }
               pending := a.pending ++ [(now + 3, SheetMsg.clearStatus)] }) ∧
    (∀ (db : Db) (a : LoopState) (now : Nat),
      LoopState.deliver db a now SheetMsg.clearStatus =
        some { sheet := { a.sheet with statusMsg := "", statusIsErr := false }
               pending := a.pending }) ∧
    (∃ a1 a2 a3,
      LoopState.deliver db0 { sheet := sheet0, pending := [] } 0
        (SheetMsg.status "saved A" false) = some a1 ∧
      LoopState.deliver db0 a1 1 (SheetMsg.status "saved B" false) = some a2 ∧
      a2.sheet.statusMsg = "saved B" ∧
      a2.pending = [(3, SheetMsg.clearStatus), (4, SheetMsg.clearStatus)] ∧
      LoopState.deliver db0 a2 3 SheetMsg.clearStatus = some a3 ∧
      a3.sheet.statusMsg = "" ∧
      (4, SheetMsg.clearStatus) ∈ a3.pending) := by
  refine ⟨fun db s message isError => rfl, fun db s => rfl,
    fun db a now message isError => ?_, fun db a now => ?_, ?_⟩
  · unfold LoopState.deliver SheetScreen.update
    rfl
  · unfold LoopState.deliver SheetScreen.update
    simp [cmdSchedule]
  · refine ⟨_, _, _, rfl, rfl, by decide, by decide, rfl, by decide, by decide⟩

end DnD
